import Mathlib

/-!
# Verification of the smartreserver-django reservation core

This file gives a shallow embedding, in Lean 4, of the reservation engine of
the `smartreserver-django` repository (chatbot/AI/shop_api): the per-shop
reservation store (`database_manager.py`), the heuristic field extractor
(`validation/data_extractor.py`), the date/time slot validator
(`validation/date_time_handler.py`), the session state
(`session_manager.py`) and the dialogue turn handler
(`agent/base_agent.py`, `agent/reservation_handler.py`,
`agent/cancellation_handler.py`).

Conventions of the embedding:
* SQLite rows become a Lean structure `Reservation`; the per-shop table is a
  `List Reservation` in insertion order, and `created_at` is the insertion
  counter (CURRENT_TIMESTAMP is monotone across inserts).
* Python `None` / missing-key / empty-string truthiness is modelled with
  `Option` plus explicit `pyTruthy` tests where the source tests truthiness.
* Exceptions raised by external collaborators (file system, Django ORM,
  dateutil) are modelled as `Except Unit` values supplied as parameters;
  `try/except` blocks in the source become `match`es on those values.
* External library calls whose output the source merely consumes
  (dateutil's `parse`, `strftime`) are parameters of the embedding.
-/

namespace SmartReserve

/-- Python `str.lower()` on ASCII text. -/
def pyLower (s : String) : String := String.mk (s.toList.map Char.toLower)

/-- Python `str.strip()`: drop whitespace from both ends. -/
def pyStrip (s : String) : String :=
  String.mk (((s.toList.dropWhile Char.isWhitespace).reverse.dropWhile Char.isWhitespace).reverse)

/-- Python `str.split('-')`. -/
def pySplitDash (s : String) : List String :=
  (s.toList.foldr
    (fun c acc =>
      if c = '-' then [] :: acc
      else
        match acc with
        | h :: t => (c :: h) :: t
        | [] => [[c]])
    [[]]).map String.mk

/-- `message.lower().strip()` as a character list, the form every matcher
below consumes. -/
def loweredChars (msg : String) : List Char := (pyStrip (pyLower msg)).toList

/-- Python truthiness of an optional string (`None` and `""` are falsy). -/
def pyTruthy : Option String → Bool
  | none => false
  | some s => !s.isEmpty

/-- Python truthiness of an optional integer (`None` and `0` are falsy). -/
def pyTruthyNat : Option Nat → Bool
  | none => false
  | some n => decide (n ≠ 0)

/-! ## Reservation store (`database_manager.py`)

A row of the `reservations` table created by
`DatabaseManager.get_reservation_connection`.  `created_at` is the insertion
counter standing for the column's CURRENT_TIMESTAMP default. -/

structure Reservation where
  reservation_id : String
  customer_name : String
  phone_number : String
  email : String
  reservation_date : String
  reservation_time : String
  party_size : Nat
  service_type : String
  status : String
  created_at : Nat
  deriving Repr, DecidableEq

/-- The partial reservation record passed around as a Python dict
(`reservation_data` / `pending_reservation` / extractor output).  A `none`
field models a missing key. -/
structure ResData where
  service_type : Option String := none
  party_size : Option Nat := none
  date : Option String := none
  time : Option String := none
  customer_name : Option String := none
  email : Option String := none
  phone_number : Option String := none
  deriving Repr, DecidableEq

/-- `dict.update`: keys present in `b` overwrite those of `a`. -/
def ResData.update (a b : ResData) : ResData where
  service_type := b.service_type.orElse fun _ => a.service_type
  party_size := b.party_size.orElse fun _ => a.party_size
  date := b.date.orElse fun _ => a.date
  time := b.time.orElse fun _ => a.time
  customer_name := b.customer_name.orElse fun _ => a.customer_name
  email := b.email.orElse fun _ => a.email
  phone_number := b.phone_number.orElse fun _ => a.phone_number

/-- Python `if extracted_data:` — the dict is non-empty. -/
def ResData.nonempty (d : ResData) : Bool :=
  d.service_type.isSome || d.party_size.isSome || d.date.isSome || d.time.isSome ||
  d.customer_name.isSome || d.email.isSome || d.phone_number.isSome

/-- Shop details relevant to the core, as loaded by
`DatabaseManager.load_shop_context` from `details.json`. -/
structure ShopContext where
  shop_name : Option String := none
  operating_hours : List (String × String) := []
  max_reservations_per_hour : Option Nat := none
  deriving Repr, DecidableEq

/-- Count of confirmed rows for an exact (date, time) slot, i.e. the
`SELECT COUNT(*) ... WHERE reservation_date = ? AND reservation_time = ?
AND status = 'confirmed'` query of `check_availability`. -/
def countConfirmedAt (store : List Reservation) (d t : String) : Nat :=
  (store.filter fun r =>
    r.reservation_date = d && r.reservation_time = t && r.status = "confirmed").length

/-- `DatabaseManager.check_availability`.  The date/time arguments are the
values the caller passes (possibly `None`); `ctx` is the outcome of
`load_shop_context` and `storeE` the outcome of opening/querying the shop's
SQLite database — `Except.error` models a raised exception, which the
source catches and converts to `False`. -/
def check_availability (dateArg timeArg : Option String)
    (ctx : Except Unit ShopContext) (storeE : Except Unit (List Reservation)) : Bool :=
  if !pyTruthy dateArg || !pyTruthy timeArg then false
  else
    match storeE, ctx with
    | .ok store, .ok c =>
        decide (countConfirmedAt store (dateArg.getD "") (timeArg.getD "")
          < c.max_reservations_per_hour.getD 4)
    | _, _ => false

/-- Result dict of `save_reservation`. -/
structure SaveResult where
  success : Bool
  reservation_id : String
  deriving Repr, DecidableEq

/-- `DatabaseManager.save_reservation`.  `newId` is the freshly generated
`RES{time}{rand}` identifier.  The INSERT raises `IntegrityError` (caught,
returning `success: False`) when the primary key collides or when a NOT
NULL column (`phone_number`, `reservation_date`, `reservation_time`)
receives `None`; `customer_name`, `email`, `party_size`, `service_type`
have explicit defaults applied by the `.get` calls.  No capacity check of
any kind is performed before the INSERT. -/
def save_reservation (newId : String) (data : ResData) (store : List Reservation) :
    SaveResult × List Reservation :=
  if store.any fun r => r.reservation_id = newId then
    (⟨false, ""⟩, store)
  else
    match data.phone_number, data.date, data.time with
    | some ph, some d, some t =>
        let row : Reservation :=
          { reservation_id := newId
            customer_name := data.customer_name.getD "Customer"
            phone_number := ph
            email := data.email.getD ""
            reservation_date := d
            reservation_time := t
            party_size := data.party_size.getD 1
            service_type := data.service_type.getD "General"
            status := "confirmed"
            created_at := store.length }
        (⟨true, newId⟩, store ++ [row])
    | _, _, _ => (⟨false, ""⟩, store)

/-- Byte-wise (memcmp-style) strict order on strings, as SQLite compares
TEXT values such as `YYYY-MM-DD` dates and `HH:MM` times. -/
def charListLt : List Char → List Char → Bool
  | [], [] => false
  | [], _ :: _ => true
  | _ :: _, [] => false
  | a :: as, b :: bs => decide (a.toNat < b.toNat) || (a = b && charListLt as bs)

/-- Strict TEXT order on strings. -/
def strLt (a b : String) : Bool := charListLt a.toList b.toList

/-- `(reservation_date, reservation_time)` of `a` is strictly below that of
`b` in the `ORDER BY reservation_date DESC, reservation_time DESC` sense. -/
def slotKeyLt (a b : Reservation) : Bool :=
  strLt a.reservation_date b.reservation_date ||
  (a.reservation_date = b.reservation_date && strLt a.reservation_time b.reservation_time)

/-- `ORDER BY reservation_date DESC, reservation_time DESC LIMIT 1` over the
matching rows: the row maximal in `slotKeyLt`.  SQLite leaves the order of
tied rows unspecified; the model keeps the first stored one. -/
def selectLatestConfirmed (ms : List Reservation) : Option Reservation :=
  ms.foldl
    (fun acc r =>
      match acc with
      | none => some r
      | some b => if slotKeyLt b r then some r else some b)
    none

/-- Result dict of `cancel_reservation_enhanced`: on success it echoes the
cancelled row's id, customer name, date and time. -/
structure CancelResult where
  success : Bool
  reservation_id : String
  customer_name : String
  date : String
  time : String
  error : String
  deriving Repr, DecidableEq

/-- The search step of `DatabaseManager.cancel_reservation_enhanced`: pick
the key by Python truthiness in the order id, phone, email; by id the lookup
is a plain `SELECT ... WHERE reservation_id = ? AND status = 'confirmed'`
(first row in table order), by phone/email it is ordered by reservation date
and time descending with LIMIT 1.  The boolean records whether any search
criterion was provided. -/
def cancelTarget (idK phoneK emailK : Option String) (store : List Reservation) :
    Option Reservation × Bool :=
  if pyTruthy idK then
    (store.find? fun r => r.reservation_id = idK.getD "" && r.status = "confirmed", true)
  else if pyTruthy phoneK then
    (selectLatestConfirmed (store.filter fun r =>
      r.phone_number = phoneK.getD "" && r.status = "confirmed"), true)
  else if pyTruthy emailK then
    (selectLatestConfirmed (store.filter fun r =>
      r.email = emailK.getD "" && r.status = "confirmed"), true)
  else (none, false)

/-- The remainder of `cancel_reservation_enhanced`: no criteria and no
matching row return failure dicts with the table untouched; a found row has
its status flipped by the UPDATE keyed on its reservation id. -/
def cancel_reservation_enhanced (idK phoneK emailK : Option String)
    (store : List Reservation) : CancelResult × List Reservation :=
  match cancelTarget idK phoneK emailK store with
  | (_, false) => (⟨false, "", "", "", "", "No search criteria provided"⟩, store)
  | (none, true) => (⟨false, "", "", "", "", "Reservation not found"⟩, store)
  | (some r, true) =>
      (⟨true, r.reservation_id, r.customer_name, r.reservation_date, r.reservation_time, ""⟩,
       store.map fun x =>
         if x.reservation_id = r.reservation_id then { x with status := "cancelled" } else x)

/-- The identifier-resolution step of
`CancellationHandler.cancel_existing_reservation_enhanced`: the message
identifiers are kept as extracted; only when none of them is truthy is the
session phone, and failing that the session email, substituted in. -/
def resolveCancellationKeys (msgId msgPhone msgEmail sessPhone sessEmail : Option String) :
    Option String × Option String × Option String :=
  if pyTruthy msgId || pyTruthy msgPhone || pyTruthy msgEmail then
    (msgId, msgPhone, msgEmail)
  else if pyTruthy sessPhone then (msgId, sessPhone, msgEmail)
  else if pyTruthy sessEmail then (msgId, msgPhone, sessEmail)
  else (msgId, msgPhone, msgEmail)

/-! ## Text matching machinery

Executable models of the Python `re` idioms used by the extractor: literal
substring search, `\b`-bounded word search, and the specific lookaheads of
`data_extractor.py`.  Messages are handled as `List Char` of the lowered
text (all patterns are literals searched case-insensitively). -/

/-- Python `\w` on ASCII text: letters, digits, underscore. -/
def isWordChar (c : Char) : Bool := c.isAlphanum || c = '_'

/-- The pattern `p` occurs literally at position `i` of `s`. -/
def occursAt (s : List Char) (i : Nat) (p : List Char) : Bool :=
  List.isPrefixOf p (s.drop i)

/-- Plain substring containment (Python `pat in text` / `re.search` of a
literal). -/
def containsSub (s p : List Char) : Bool :=
  (List.range (s.length + 1)).any fun i => occursAt s i p

/-- The pattern occurs at `i` with `\b` on both sides (the patterns used all
begin and end with word characters, so the boundary holds exactly when the
neighbouring character is absent or not a word character). -/
def boundedAt (s : List Char) (i : Nat) (p : List Char) : Bool :=
  occursAt s i p
  && (decide (i = 0) || !isWordChar (s.getD (i - 1) ' '))
  && (decide (s.length ≤ i + p.length) || !isWordChar (s.getD (i + p.length) ' '))

/-- `re.search(\b p \b, s)` for a literal `p`. -/
def hasBoundedWord (s p : List Char) : Bool :=
  (List.range (s.length + 1)).any fun i => boundedAt s i p

/-- `len(re.findall(\b p \b, s))` for a literal `p` (no self-overlap
arises for the words this is applied to). -/
def countBoundedWord (s p : List Char) : Nat :=
  ((List.range (s.length + 1)).filter fun i => boundedAt s i p).length

/-- `\s+` followed by the literal `p`: at least one whitespace character and
then `p` (the lookahead bodies `\s+and`, `\s+more`, …). -/
def wsThenWord : List Char → List Char → Bool
  | [], _ => false
  | c :: rest, p => c.isWhitespace && (List.isPrefixOf p rest || wsThenWord rest p)

/-- `\s+` then the literal number `p` with a trailing `\b` (the reversed
party-context pattern `(?:word)\s+\b{num}\b`). -/
def wsThenBoundedNum : List Char → List Char → Bool
  | [], _ => false
  | c :: rest, p =>
      c.isWhitespace &&
      ((List.isPrefixOf p rest
          && (decide (rest.length ≤ p.length) || !isWordChar (rest.getD p.length ' ')))
        || wsThenBoundedNum rest p)

/-! ## Field extraction (`validation/data_extractor.py`) -/

/-- Numeric value of a run of digit characters (Python `int`). -/
def natOfDigits (run : List Char) : Nat :=
  run.foldl (fun a c => a * 10 + (c.toNat - 48)) 0

/-- The strict solo patterns of `_extract_party_size` (any match forces
party size 1).  The two patterns with a negative lookahead,
`\bfor me\b(?!\s+and)` and `\bone\b(?!\s+more|\s+other|\s+extra)`, are
spelled out position by position. -/
def strictSoloMatch (s : List Char) : Bool :=
  hasBoundedWord s "alone".toList || hasBoundedWord s "solo".toList ||
  hasBoundedWord s "just me".toList || hasBoundedWord s "only me".toList ||
  hasBoundedWord s "myself".toList ||
  ((List.range (s.length + 1)).any fun i =>
    boundedAt s i "for me".toList && !wsThenWord (s.drop (i + 6)) "and".toList) ||
  hasBoundedWord s "just for me".toList || hasBoundedWord s "single".toList ||
  hasBoundedWord s "one person".toList ||
  ((List.range (s.length + 1)).any fun i =>
    boundedAt s i "one".toList &&
    !(wsThenWord (s.drop (i + 3)) "more".toList ||
      wsThenWord (s.drop (i + 3)) "other".toList ||
      wsThenWord (s.drop (i + 3)) "extra".toList)) ||
  hasBoundedWord s "by myself".toList || hasBoundedWord s "on my own".toList

/-- `party_context_words` of `_extract_party_size`. -/
def partyContextWords : List (List Char) :=
  ["people", "persons", "guests", "person", "adults", "kids",
   "children", "group", "party", "size", "for", "of", "with"].map String.toList

/-- `re.findall(r'\b(\d+)\b', message)`: maximal digit runs delimited by a
word boundary on both sides, in order of appearance. -/
def digitRuns (s : List Char) : List (List Char) :=
  (List.range (s.length + 1)).filterMap fun i =>
    if (s.getD i 'x').isDigit && (decide (i = 0) || !isWordChar (s.getD (i - 1) ' ')) then
      let run := (s.drop i).takeWhile Char.isDigit
      if decide (s.length ≤ i + run.length) || !isWordChar (s.getD (i + run.length) ' ') then
        some run
      else none
    else none

/-- `re.search(\b{num}\b\s+(?:ctx))` or `re.search((?:ctx)\s+\b{num}\b)`:
the canonical decimal form of the number sits next to a party-context word.
Neither pattern puts a `\b` on the context-word side, matching the source
regexes exactly. -/
def numberHasContext (s num : List Char) : Bool :=
  ((List.range (s.length + 1)).any fun i =>
    boundedAt s i num && partyContextWords.any fun w => wsThenWord (s.drop (i + num.length)) w)
  || ((List.range (s.length + 1)).any fun i =>
    partyContextWords.any fun w => occursAt s i w && wsThenBoundedNum (s.drop (i + w.length)) num)

/-- The explicit-number rule: first number (in `findall` order) that has
party context and lies within `[1, max_party_size]`; out-of-range numbers
are passed over without stopping the scan. -/
def explicitNumberSize (s : List Char) (maxP : Nat) : Option Nat :=
  (digitRuns s).findSome? fun run =>
    let n := natOfDigits run
    if numberHasContext s (toString n).toList && 1 ≤ n && n ≤ maxP then some n else none

/-- `relationship_indicators` of `_extract_party_size`, in dict insertion
order. -/
def relationshipIndicators : List (String × Nat) :=
  [("brother", 2), ("sister", 2), ("friend", 2), ("friends", 2),
   ("partner", 2), ("wife", 2), ("husband", 2), ("child", 2),
   ("children", 2), ("kids", 2), ("family", 3), ("parents", 3),
   ("colleague", 2), ("co-worker", 2), ("cousin", 2),
   ("mom", 2), ("dad", 2), ("mother", 2), ("father", 2)]

/-- The relationship rule: first keyword contained (plain substring test) in
the message; its count of `\b`-bounded occurrences adds `count - 1` when
mentioned more than once. -/
def relationshipSize (s : List Char) : Option Nat :=
  relationshipIndicators.findSome? fun rel =>
    if containsSub s rel.1.toList then
      let count := countBoundedWord s rel.1.toList
      some (rel.2 + (if count > 1 then count - 1 else 0))
    else none

/-- The odd source pattern `\bwe\'\sre\b`: `we`, an apostrophe, exactly one
whitespace class character, then `re`, with word boundaries outside. -/
def weApostrophePattern (s : List Char) : Bool :=
  (List.range (s.length + 1)).any fun i =>
    (decide (i = 0) || !isWordChar (s.getD (i - 1) ' '))
    && occursAt s i ['w', 'e', Char.ofNat 39]
    && (s.getD (i + 3) 'x').isWhitespace
    && occursAt s (i + 4) ['r', 'e']
    && (decide (s.length ≤ i + 6) || !isWordChar (s.getD (i + 6) ' '))

/-- `group_indicators` of `_extract_party_size` (any match gives size 2). -/
def groupIndicatorMatch (s : List Char) : Bool :=
  hasBoundedWord s "both".toList || hasBoundedWord s "together".toList ||
  hasBoundedWord s "we are".toList || weApostrophePattern s ||
  hasBoundedWord s "us".toList || hasBoundedWord s "all of us".toList ||
  hasBoundedWord s "everyone".toList

/-- `DataExtractor._extract_party_size` on the lowered message: solo
vocabulary, then explicit number with party context, then relationship
keywords, then group words; a determined size is finally capped by
`min(party_size, max_party_size)`. -/
def extractPartySize (s : List Char) (maxP : Nat) : Option Nat :=
  let p : Option Nat :=
    if strictSoloMatch s then some 1
    else
      match explicitNumberSize s maxP with
      | some n => some n
      | none =>
          match relationshipSize s with
          | some k => some k
          | none => if groupIndicatorMatch s then some 2 else none
  p.map fun n => min n maxP

/-- `service_patterns` of `_extract_service_type`: each key is a `|`
alternation of literals, in dict insertion order. -/
def servicePatterns : List (List String × String) :=
  [(["haircut", "hair cut"], "Haircut"),
   (["beard", "trim", "shape"], "Beard Trim & Shape"),
   (["shave"], "Traditional Shave"),
   (["color", "coloring"], "Hair Coloring"),
   (["treatment", "keratin"], "Keratin Treatment"),
   (["classic"], "Classic Haircut"),
   (["massage"], "Massage"),
   (["dinner", "dining"], "Dinner Reservation"),
   (["brunch"], "Weekend Brunch"),
   (["private", "room"], "Private Dining Room"),
   (["appointment", "booking", "reservation"], "General Service")]

/-- `DataExtractor._extract_service_type`: first pattern with any
alternative occurring in the lowered message. -/
def extractServiceType (s : List Char) : Option String :=
  servicePatterns.findSome? fun pat =>
    if pat.1.any (fun a => containsSub s a.toList) then some pat.2 else none

/-- Numeric value of a digit character. -/
def digitVal (c : Char) : Nat := c.toNat - 48

/-- Time pattern 1, `(\d{1,2}:\d{2}\s*(?:AM|PM|am|pm)?)`, matched at the
head of a suffix: greedy one-or-two-digit hour, colon, two-digit minute,
optional whitespace, optional meridiem marker.  Returns
(hour, minute, is_pm). -/
def p1At (t : List Char) : Option (Nat × Nat × Bool) :=
  let hr? : Option (Nat × List Char) :=
    match t with
    | a :: b :: c :: rest =>
        if a.isDigit && b.isDigit && c = ':' then some (10 * digitVal a + digitVal b, rest)
        else if a.isDigit && b = ':' then some (digitVal a, c :: rest)
        else none
    | a :: b :: rest => if a.isDigit && b = ':' then some (digitVal a, rest) else none
    | _ => none
  match hr? with
  | none => none
  | some (h, rest) =>
      match rest with
      | m1 :: m2 :: rest2 =>
          if m1.isDigit && m2.isDigit then
            let r := rest2.dropWhile Char.isWhitespace
            some (h, 10 * digitVal m1 + digitVal m2, List.isPrefixOf ['p', 'm'] r)
          else none
      | _ => none

/-- Time pattern 2, `(\d{1,2}\s*(?:AM|PM|am|pm))`, matched at the head of a
suffix: greedy digits, optional whitespace, then a required meridiem
marker; minutes default to 0. -/
def p2At (t : List Char) : Option (Nat × Nat × Bool) :=
  match t with
  | [] => none
  | a :: rest =>
      if !a.isDigit then none
      else
        let attempt2 : Option (Nat × Bool) :=
          match rest with
          | b :: rest2 =>
              if b.isDigit then
                let r := rest2.dropWhile Char.isWhitespace
                if List.isPrefixOf ['a', 'm'] r then some (10 * digitVal a + digitVal b, false)
                else if List.isPrefixOf ['p', 'm'] r then some (10 * digitVal a + digitVal b, true)
                else none
              else none
          | [] => none
        match attempt2 with
        | some v => some (v.1, 0, v.2)
        | none =>
            let r := rest.dropWhile Char.isWhitespace
            if List.isPrefixOf ['a', 'm'] r then some (digitVal a, 0, false)
            else if List.isPrefixOf ['p', 'm'] r then some (digitVal a, 0, true)
            else none

/-- The o'clock alternation with its trailing `\b`:
`(?:o\'clock|oclock|clock)\b` after optional whitespace. -/
def oclockAfter (r : List Char) : Bool :=
  let r2 := r.dropWhile Char.isWhitespace
  [['o', Char.ofNat 39, 'c', 'l', 'o', 'c', 'k'],
   ['o', 'c', 'l', 'o', 'c', 'k'],
   ['c', 'l', 'o', 'c', 'k']].any fun alt =>
    List.isPrefixOf alt r2 &&
    (decide (r2.length ≤ alt.length) || !isWordChar (r2.getD alt.length ' '))

/-- Time pattern 3, `\b(\d{1,2})\s*(?:o\'clock|oclock|clock)\b`, matched at
position `i` (the leading `\b` needs the previous character). -/
def p3At (s : List Char) (i : Nat) : Option (Nat × Nat × Bool) :=
  if !(decide (i = 0) || !isWordChar (s.getD (i - 1) ' ')) then none
  else
    match s.drop i with
    | [] => none
    | a :: rest =>
        if !a.isDigit then none
        else
          let attempt2 : Option Nat :=
            match rest with
            | b :: rest2 => if b.isDigit && oclockAfter rest2 then some (10 * digitVal a + digitVal b) else none
            | [] => none
          match attempt2 with
          | some h => some (h, 0, false)
          | none => if oclockAfter rest then some (digitVal a, 0, false) else none

/-- The `time_patterns` loop of `_extract_date_time`: the three patterns are
tried in order, each searched left to right over the message. -/
def scanTime (s : List Char) : Option (Nat × Nat × Bool) :=
  (((List.range (s.length + 1)).findSome? fun i => p1At (s.drop i)).orElse fun _ =>
    ((List.range (s.length + 1)).findSome? fun i => p2At (s.drop i))).orElse fun _ =>
    (List.range (s.length + 1)).findSome? fun i => p3At s i

/-- The 12-hour to 24-hour conversion of `_extract_date_time`
(`if is_pm and hour < 12 ... elif not is_pm and hour == 12 ...`). -/
def convert24 (hour minute : Nat) (isPm : Bool) : Nat × Nat :=
  if isPm && hour < 12 then (hour + 12, minute)
  else if !isPm && hour = 12 then (0, minute)
  else (hour, minute)

/-- `%02d` for the values in range here. -/
def pad2 (n : Nat) : String := if n < 10 then "0" ++ toString n else toString n

/-- `f"{hour:02d}:{minute:02d}"`. -/
def formatClock (h m : Nat) : String := pad2 h ++ ":" ++ pad2 m

/-- The extracted `time` field: first time pattern matched, converted to a
24-hour clock string. -/
def timeFromMessage (s : List Char) : Option String :=
  (scanTime s).map fun x => formatClock (convert24 x.1 x.2.1 x.2.2).1 (convert24 x.1 x.2.1 x.2.2).2

/-- `DataExtractor._extract_date_time`.  Dates are day indices rendered by
the external `strftime`, modelled by the injective parameter `fmt`;
`today` is the current day index and `todayWeekday` its Python weekday
(Monday = 0).  `explicitDate` is the outcome of the non-contextual
date-pattern branch (regexes plus `dateutil.parser.parse`, both external).
The `tonight` branch writes the `18:00` default before the time patterns
run, so a matched time pattern overwrites it. -/
def extract_date_time (m : List Char) (today todayWeekday : Nat) (fmt : Nat → String)
    (explicitDate : Option String) : Option String × Option String :=
  let dt : Option String × Option String :=
    if containsSub m "tonight".toList || containsSub m "this evening".toList then
      (some (fmt today), some "18:00")
    else if containsSub m "tomorrow".toList then (some (fmt (today + 1)), none)
    else if containsSub m "next week".toList then (some (fmt (today + 7)), none)
    else if containsSub m "weekend".toList then
      (some (fmt (today + (let d := (5 + 7 - todayWeekday % 7) % 7; if d = 0 then 7 else d))),
       none)
    else (explicitDate, none)
  match timeFromMessage m with
  | some t => (dt.1, some t)
  | none => dt

/-- `DataExtractor.extract_reservation_data`: lower and strip the message,
then extract service type, party size, and date/time. -/
def extract_reservation_data (msg : String) (today todayWeekday : Nat) (fmt : Nat → String)
    (explicitDate : String → Option String) (maxP : Nat) : ResData :=
  let m := loweredChars msg
  let dt := extract_date_time m today todayWeekday fmt (explicitDate msg)
  { service_type := extractServiceType m
    party_size := extractPartySize m maxP
    date := dt.1
    time := dt.2 }

/-! ## Slot validation (`validation/date_time_handler.py`)

Moments are modelled in minutes: an absolute moment is a minute count from
an arbitrary epoch, a clock time is its minutes-of-day (`moment % 1440`).
`datetime.time` comparison coincides with comparison of minutes-of-day.
`_parse_time_string` (dateutil plus a manual fallback) is an external
parser and is passed as the parameter `parseTime`. -/

/-- `DateTimeHandler._check_within_shop_hours`: split the hours string on
`-`; an unparsable string never blocks; a close time below the open time
means the shop closes after midnight, and the requested time is accepted
exactly when it is at or after opening or at or before closing; otherwise
the requested time must lie inclusively between the two. -/
def check_within_shop_hours (parseTime : String → Option Nat) (requestedTod : Nat)
    (hoursStr : String) : Bool × String :=
  let parts := pySplitDash hoursStr
  if parts.length ≠ 2 then (true, "")
  else
    let openStr := pyStrip (parts.getD 0 "")
    let closeStr := pyStrip (parts.getD 1 "")
    match parseTime openStr, parseTime closeStr with
    | some o, some c =>
        if c < o then
          if o ≤ requestedTod || requestedTod ≤ c then (true, "")
          else (false, "Time must be between " ++ openStr ++ " and " ++ closeStr)
        else
          if o ≤ requestedTod && requestedTod ≤ c then (true, "")
          else (false, "Time must be between " ++ openStr ++ " and " ++ closeStr)
    | _, _ => (true, "")

/-- `DateTimeHandler.validate_date_time`.  `parsed` is the outcome of
`dateutil.parser.parse` on `f"{date_str} {time_str}"` (`none` models the
caught parse exception), `current` the current moment, both in minutes.
`hoursDict` is `none` when `shop_hours` is falsy (block skipped),
`some none` when the weekday is missing from the dict, and
`some (some hs)` the weekday's hours string; `dayName` the capitalized
weekday for the closed message. -/
def validate_date_time (parsed : Option Nat) (current : Nat)
    (min_hours_from_now max_days_in_future : Nat)
    (hoursDict : Option (Option String)) (dayName : String)
    (parseTime : String → Option Nat) : Bool × String × Option Nat :=
  match parsed with
  | none => (false, "Invalid date or time format", none)
  | some requested =>
      if requested < current then (false, "Cannot book in the past", none)
      else if requested < current + 60 * min_hours_from_now then
        (false, "Booking must be at least " ++ toString min_hours_from_now ++
          " hour(s) in advance", none)
      else if current + 1440 * max_days_in_future < requested then
        (false, "Cannot book more than " ++ toString max_days_in_future ++
          " days in advance", none)
      else
        match hoursDict with
        | none => (true, "Valid datetime", some requested)
        | some none => (false, "We\x27re closed on " ++ dayName, none)
        | some (some hs) =>
            if hs.isEmpty || pyLower hs = "closed" then
              (false, "We\x27re closed on " ++ dayName, none)
            else
              let r := check_within_shop_hours parseTime (requested % 1440) hs
              if r.1 then (true, "Valid datetime", some requested)
              else (false, r.2, none)

/-! ## Session state and conversation cache
(`session_manager.py`, `agent/conversation_manager.py`) -/

/-- The per-session dict held by `EnhancedSessionManager.sessions`
(conversation history and timestamps aside). -/
structure Session where
  reservationState : Option String := none
  reservationData : ResData := {}
  pendingReservation : Option ResData := none
  userName : Option String := none
  userEmail : Option String := none
  userPhone : Option String := none
  messageCount : Nat := 0
  deriving Repr, DecidableEq

/-- `EnhancedSessionManager.get_session` on an already-known session id:
bump the message count and overwrite contact fields only with truthy
incoming values. -/
def get_session_bump (sess : Session) (hintEmail hintName hintPhone : Option String) : Session :=
  { sess with
    messageCount := sess.messageCount + 1
    userEmail := if pyTruthy hintEmail then hintEmail else sess.userEmail
    userName := if pyTruthy hintName then hintName else sess.userName
    userPhone := if pyTruthy hintPhone then hintPhone else sess.userPhone }

/-- `EnhancedSessionManager.set_reservation_state`: set the state and, when
a (truthy) data dict is passed, merge it into the accumulated data. -/
def set_reservation_state (sess : Session) (state : String) (data : Option ResData) : Session :=
  { sess with
    reservationState := some state
    reservationData :=
      match data with
      | some d => sess.reservationData.update d
      | none => sess.reservationData }

/-- `EnhancedSessionManager.clear_reservation_state`. -/
def clear_reservation_state (sess : Session) : Session :=
  { sess with reservationState := none, reservationData := {}, pendingReservation := none }

/-- `EnhancedSessionManager.set_pending_reservation`. -/
def set_pending_reservation (sess : Session) (d : ResData) : Session :=
  { sess with pendingReservation := some d }

/-- `ConversationManager.add_to_conversation_cache`: append the
(role, content) entry and keep the most recent `max_cache_size = 20`. -/
def add_to_conversation_cache (cache : List (String × String)) (role content : String) :
    List (String × String) :=
  let c := cache ++ [(role, content)]
  if c.length > 20 then c.drop (c.length - 20) else c

/-- `ConversationManager.clear_conversation_cache`: keep only the last
entry, and an at-most-singleton cache becomes empty. -/
def clear_conversation_cache (cache : List (String × String)) : List (String × String) :=
  if cache.length > 1 then cache.drop (cache.length - 1) else []

/-- `ConversationManager.reset_conversation_context`. -/
def reset_conversation_context (cache : List (String × String)) : List (String × String) :=
  add_to_conversation_cache (clear_conversation_cache cache) "assistant" "How can I help you today?"

/-! ## The dialogue turn
(`agent/base_agent.py`, `agent/reservation_handler.py`,
`agent/cancellation_handler.py`) -/

/-- The dict returned by a turn (response text and structured flags kept;
`shop_id`/`shop_name`/`session_id`/`agents_used` echoes dropped). -/
structure TurnResponse where
  response : String
  success : Bool
  needs_confirmation : Bool := false
  reservation_id : Option String := none
  needs_more_info : Bool := false
  deriving Repr, DecidableEq

/-- The external collaborators of a turn, with `Except.error` modelling a
raised exception.  `loadShopContext` is `DatabaseManager.load_shop_context`
(file system + JSON); `extract` is
`SecurityValidationSystem.extract_reservation_data`; `aiResponse` is
`ResponseHandler.generate_ai_response` (it catches its own errors and
falls back deterministically, so it is total); `summary` the deterministic
`PromptBuilder` template; `parseDT` models
`datetime.strptime(f"{date} {time}", "%Y-%m-%d %H:%M")` plus
`strftime('%A').lower()`, returning minutes-of-day and weekday name;
`parseTime` models `_parse_time_string`; `newId` the freshly generated
reservation id; the hints are the contact arguments of the inbound call. -/
structure Env where
  loadShopContext : Except Unit ShopContext
  extract : String → ResData
  extractResId : String → Option String
  extractPhone : String → Option String
  extractEmail : String → Option String
  aiResponse : String → String
  summary : ResData → String
  parseDT : String → Option (Nat × String)
  parseTime : String → Option Nat
  newId : String
  hintName : Option String := none
  hintEmail : Option String := none
  hintPhone : Option String := none

/-- `UniversalShopAgent._is_cancellation_request`. -/
def is_cancellation_request (msg : String) : Bool :=
  let m := loweredChars msg
  ["cancel", "stop", "nevermind", "never mind", "leave it", "don\x27t want",
   "cancel reservation", "cancel booking", "delete reservation"].any
    fun w => containsSub m w.toList

/-- The affirmative-token test of
`ReservationHandler.process_reservation_confirmation` (substring test on
the lowered message). -/
def anyAffirmativeWord (msg : String) : Bool :=
  ["yes", "yep", "confirm", "yeah", "sure", "ok", "okay", "please"].any
    fun w => containsSub (pyLower msg).toList w.toList

/-- The confirmation-word test of `UniversalShopAgent.handle_shop_request`
step 3. -/
def anyConfirmationWord (msg : String) : Bool :=
  ["yes", "confirm", "ok", "okay", "sure", "yep", "yeah", "go ahead",
   "please do", "book it", "reserve"].any
    fun w => containsSub (pyLower msg).toList w.toList

/-- `ReservationHandler.process_reservation_confirmation`.  The first
component is `.error ()` when the method re-raises (its `except` clause
clears the reservation state and the conversation cache first).  The
shop-hours gate models lines 54–82: its inner `try` swallows parse
failures, and a missing or falsy hours entry skips the check. -/
def process_reservation_confirmation (msg : String) (sess : Session)
    (cache : List (String × String)) (store : List Reservation) (env : Env) :
    Except Unit TurnResponse × Session × List (String × String) × List Reservation :=
  match env.loadShopContext with
  | .error _ =>
      (.error (), clear_reservation_state sess, clear_conversation_cache cache, store)
  | .ok ctx =>
      match sess.pendingReservation with
      | none =>
          let resp := "I don\x27t see a pending reservation. Let\x27s start over."
          (.ok { response := resp, success := false }, sess,
           add_to_conversation_cache (clear_conversation_cache cache) "assistant" resp, store)
      | some pending =>
          if anyAffirmativeWord msg then
            let hoursGate : Option String :=
              if !ctx.operating_hours.isEmpty && pending.date.isSome && pending.time.isSome then
                match env.parseDT (pending.date.getD "" ++ " " ++ pending.time.getD "") with
                | none => none
                | some dt =>
                    let hoursForDay :=
                      (((ctx.operating_hours.find? fun kv => kv.1 = dt.2).map Prod.snd).getD "")
                    if !hoursForDay.isEmpty then
                      let r := check_within_shop_hours env.parseTime dt.1 hoursForDay
                      if !r.1 then
                        some ("I\x27m sorry, but " ++ r.2 ++ ". Our hours for " ++ dt.2 ++
                          " are: " ++ hoursForDay ++ ". Would you like to choose a different time?")
                      else none
                    else none
              else none
            match hoursGate with
            | some resp =>
                (.ok { response := resp, success := false }, sess,
                 add_to_conversation_cache cache "assistant" resp, store)
            | none =>
                if !check_availability pending.date pending.time env.loadShopContext (.ok store) then
                  let resp := "That time slot is no longer available. Would you like to try a different time?"
                  (.ok { response := resp, success := false }, clear_reservation_state sess,
                   add_to_conversation_cache (clear_conversation_cache cache) "assistant" resp, store)
                else
                  let pending2 := { pending with
                    phone_number :=
                      if !pyTruthy pending.phone_number && pyTruthy sess.userPhone then
                        sess.userPhone
                      else pending.phone_number
                    customer_name :=
                      if !pyTruthy pending.customer_name && pyTruthy sess.userName then
                        sess.userName
                      else pending.customer_name
                    email :=
                      if !pyTruthy pending.email && pyTruthy sess.userEmail then
                        sess.userEmail
                      else pending.email }
                  let sv := save_reservation env.newId pending2 store
                  if sv.1.success then
                    let resp := "RESERVATION CONFIRMED\n\nYour appointment has been booked successfully.\n\nReservation ID: " ++
                      sv.1.reservation_id ++ "\nDate: " ++ pending2.date.getD "To be confirmed" ++
                      "\nTime: " ++ pending2.time.getD "To be confirmed" ++ "\nParty Size: " ++
                      toString (pending2.party_size.getD 1) ++
                      " people\n\nPlease save your Reservation ID: " ++ sv.1.reservation_id ++
                      " for any changes or cancellations.\n\nWe look forward to seeing you."
                    (.ok { response := resp, success := true, reservation_id := some sv.1.reservation_id },
                     clear_reservation_state sess,
                     reset_conversation_context
                       (add_to_conversation_cache (clear_conversation_cache cache) "assistant" resp),
                     sv.2)
                  else
                    let resp := "Sorry, we encountered an error while saving your reservation. Please try again."
                    (.ok { response := resp, success := false }, clear_reservation_state sess,
                     add_to_conversation_cache (clear_conversation_cache cache) "assistant" resp, sv.2)
          else
            let resp := "No problem. Let me know if you\x27d like to change anything or start over."
            (.ok { response := resp, success := true }, clear_reservation_state sess,
             reset_conversation_context
               (add_to_conversation_cache (clear_conversation_cache cache) "assistant" resp),
             store)

/-- `CancellationHandler.cancel_existing_reservation_enhanced`, including
its session and cache effects: resolve the keys, ask for an identifier when
none is truthy (store untouched), otherwise run the store cancellation and
on success clear the session reservation state and the cache. -/
def cancel_existing_reservation_flow (msgId msgPhone msgEmail : Option String)
    (sess : Session) (cache : List (String × String)) (store : List Reservation) :
    TurnResponse × Session × List (String × String) × List Reservation :=
  let keys := resolveCancellationKeys msgId msgPhone msgEmail sess.userPhone sess.userEmail
  if !(pyTruthy keys.1 || pyTruthy keys.2.1 || pyTruthy keys.2.2) then
    let resp := "I need some information to find your reservation. Please provide:\n1. Your Reservation ID (starts with RES...), OR\n2. Your phone number, OR\n3. Your email address\n\nWhich would you like to use?"
    ({ response := resp, success := true, needs_more_info := true }, sess,
     add_to_conversation_cache cache "assistant" resp, store)
  else
    let r := cancel_reservation_enhanced keys.1 keys.2.1 keys.2.2 store
    if r.1.success then
      let resp := "CANCELLATION SUCCESSFUL\n\nYour reservation has been cancelled:\n\nReservation ID: " ++
        r.1.reservation_id ++ "\nName: " ++ r.1.customer_name ++ "\nDate: " ++ r.1.date ++
        "\nTime: " ++ r.1.time ++ "\n\nWe hope to see you another time."
      ({ response := resp, success := true }, clear_reservation_state sess,
       add_to_conversation_cache (clear_conversation_cache cache) "assistant" resp, r.2)
    else
      let why :=
        if pyTruthy keys.1 then "Reservation ID: " ++ keys.1.getD ""
        else if pyTruthy keys.2.1 then "phone number: " ++ keys.2.1.getD ""
        else if pyTruthy keys.2.2 then "email: " ++ keys.2.2.getD ""
        else ""
      let resp := "RESERVATION NOT FOUND\n\nI couldn\x27t find an active reservation with the " ++
        why ++ ".\n\nPlease check your information and try again, or contact the shop directly."
      ({ response := resp, success := false }, sess,
       add_to_conversation_cache cache "assistant" resp, store)

/-- `CancellationHandler.handle_cancellation`: an ongoing reservation
process is abandoned (state cleared before the shop context is loaded, so
a load failure is caught by the handler's `except` with the state already
cleared); otherwise the enhanced lookup runs.  Nothing propagates. -/
def handle_cancellation (msg : String) (sess : Session)
    (cache : List (String × String)) (store : List Reservation) (env : Env) :
    TurnResponse × Session × List (String × String) × List Reservation :=
  if pyTruthy sess.reservationState then
    let sess2 := clear_reservation_state sess
    match env.loadShopContext with
    | .error _ =>
        let resp := "Okay, I\x27ve stopped what we were doing. How can I help you now?"
        ({ response := resp, success := true }, sess2,
         add_to_conversation_cache cache "assistant" resp, store)
    | .ok _ =>
        let resp := "I\x27ve cancelled your ongoing reservation process. Let me know if you\x27d like to start over."
        ({ response := resp, success := true }, sess2,
         add_to_conversation_cache (clear_conversation_cache cache) "assistant" resp, store)
  else
    cancel_existing_reservation_flow (env.extractResId msg) (env.extractPhone msg)
      (env.extractEmail msg) sess cache store

/-- `UniversalShopAgent._generate_emergency_response` text. -/
def emergencyText : String := "I\x27m here to help. What can I assist you with today?"

/-- The body of `UniversalShopAgent.handle_shop_request` inside the
top-level `try`: `.error ()` in the first component marks an uncaught
exception, with the session, cache and store mutations made so far. -/
def handle_shop_request_body (msg : String) (sess0 : Session)
    (cache0 : List (String × String)) (store0 : List Reservation) (env : Env) :
    Except Unit TurnResponse × Session × List (String × String) × List Reservation :=
  let sess1 := get_session_bump sess0 env.hintEmail env.hintName env.hintPhone
  let cache1 := add_to_conversation_cache cache0 "user" msg
  if is_cancellation_request msg then
    let r := handle_cancellation msg sess1 cache1 store0 env
    (.ok r.1, r.2)
  else
    let rstate := sess1.reservationState
    let extracted := env.extract msg
    let step : Session × ResData :=
      if extracted.nonempty then
        let rdata2 :=
          if sess1.reservationData.nonempty then sess1.reservationData.update extracted
          else extracted
        (set_reservation_state sess1 "collecting_info" (some rdata2), rdata2)
      else (sess1, sess1.reservationData)
    let sess2 := step.1
    let rdata2 := step.2
    let hasAll := pyTruthy rdata2.date && pyTruthy rdata2.time && pyTruthyNat rdata2.party_size
    if hasAll && rstate = some "collecting_info" && anyConfirmationWord msg then
      match env.loadShopContext with
      | .error _ => (.error (), sess2, cache1, store0)
      | .ok _ =>
          let finalData := { rdata2 with
            customer_name := sess1.userName
            email := sess1.userEmail
            phone_number := sess1.userPhone }
          let sess3 :=
            set_reservation_state (set_pending_reservation sess2 finalData)
              "awaiting_confirmation" none
          let resp := env.summary finalData
          (.ok { response := resp, success := true, needs_confirmation := true }, sess3,
           add_to_conversation_cache cache1 "assistant" resp, store0)
    else if rstate = some "awaiting_confirmation" then
      process_reservation_confirmation msg sess2 cache1 store0 env
    else
      match env.loadShopContext with
      | .error _ => (.error (), sess2, cache1, store0)
      | .ok _ =>
          let resp := env.aiResponse msg
          (.ok { response := resp, success := true }, sess2,
           add_to_conversation_cache cache1 "assistant" resp, store0)

/-- `UniversalShopAgent.handle_shop_request`: run the body and convert any
uncaught exception into the emergency response, appending it to the
conversation cache (`_generate_emergency_response` swallows its own
shop-context failure). -/
def handle_shop_request (msg : String) (sess0 : Session)
    (cache0 : List (String × String)) (store0 : List Reservation) (env : Env) :
    TurnResponse × Session × List (String × String) × List Reservation :=
  let r := handle_shop_request_body msg sess0 cache0 store0 env
  match r.1 with
  | .ok resp => (resp, r.2)
  | .error _ =>
      ({ response := emergencyText, success := false }, r.2.1,
       add_to_conversation_cache r.2.2.1 "assistant" emergencyText, r.2.2.2)

/-! ## Sample data used by witnesses and counterexamples -/

/-- A confirmed sample row in the 2025-06-01 18:00 slot. -/
def sampleRow (i : Nat) : Reservation :=
  ⟨"RES" ++ toString i, "Customer", "5550001111", "", "2025-06-01", "18:00", 2, "General",
   "confirmed", i⟩

/-- A store whose 2025-06-01 18:00 slot already holds four confirmed
reservations. -/
def fullSlotStore : List Reservation := [sampleRow 0, sampleRow 1, sampleRow 2, sampleRow 3]

/-- Shop details with the capacity policy set to 4. -/
def sampleCtx : ShopContext :=
  { shop_name := some "Billys", operating_hours := [],
    max_reservations_per_hour := some 4 }

/-- A complete reservation payload. -/
def sampleData : ResData :=
  { party_size := some 2, date := some "2025-06-01", time := some "18:00",
    customer_name := some "Dana", phone_number := some "5552223333" }


/-- Two confirmed rows for the same phone and email: the row created first
(`created_at 0`) carries the later reservation date. -/
def rowCreatedFirstLaterDate : Reservation :=
  ⟨"RESA", "Ann", "5559998888", "ann@example.com", "2025-12-31", "18:00", 2, "General",
   "confirmed", 0⟩

/-- The row created last (`created_at 1`) with the earlier reservation
date. -/
def rowCreatedLastEarlierDate : Reservation :=
  ⟨"RESB", "Ann", "5559998888", "ann@example.com", "2025-01-10", "18:00", 2, "General",
   "confirmed", 1⟩

/-- Store holding the two rows above in creation order. -/
def phonePairStore : List Reservation := [rowCreatedFirstLaterDate, rowCreatedLastEarlierDate]

/-- A parser for the two time strings of the sample shop-hours window
"9:00 AM - 7:00 PM" (minutes of day). -/
def sampleParseTime : String → Option Nat :=
  fun s => if s = "9:00 AM" then some 540 else if s = "7:00 PM" then some 1140 else none

/-- A turn environment whose shop-context load raises (missing shop files),
with the real embedded extractor plugged in. -/
def errorEnv : Env :=
  { loadShopContext := .error ()
    extract := fun m => extract_reservation_data m 100 2 (fun n => toString n) (fun _ => none) 10
    extractResId := fun _ => none
    extractPhone := fun _ => none
    extractEmail := fun _ => none
    aiResponse := fun _ => "We are open daily."
    summary := fun _ => "Summary"
    parseDT := fun _ => none
    parseTime := fun _ => none
    newId := "RES1" }

/-- The same environment with a healthy shop-context load. -/
def okEnv : Env :=
  { errorEnv with loadShopContext := .ok sampleCtx }

/-- A session sitting in awaiting_confirmation with a pending snapshot. -/
def sessAwait : Session :=
  { reservationState := some "awaiting_confirmation", pendingReservation := some sampleData }

/-! ## Claims -/

/-- C1: the spec claims the store never exceeds `max_reservations_per_slot`
confirmed rows per slot because the capacity count and the insert are one
atomic transaction inside Reserve.  In the code `save_reservation` performs
no capacity check at all: called on a slot that `check_availability`
already reports full (4 of 4 booked), it succeeds and leaves 5 confirmed
rows in the slot. -/
theorem save_reservation_ignores_capacity :
    check_availability (some "2025-06-01") (some "18:00") (.ok sampleCtx) (.ok fullSlotStore)
      = false
    ∧ (save_reservation "RES9001" sampleData fullSlotStore).1.success = true
    ∧ countConfirmedAt (save_reservation "RES9001" sampleData fullSlotStore).2
        "2025-06-01" "18:00" = 5
    ∧ sampleCtx.max_reservations_per_hour = some 4 := by
  decide

/-- C9: `check_availability` fails closed — a falsy date or time argument,
a failing shop-policy load, or a failing store query all yield `false`
instead of an exception. -/
theorem check_availability_fails_closed
    (dateArg timeArg : Option String) (ctx : Except Unit ShopContext)
    (storeE : Except Unit (List Reservation)) :
    ((dateArg = none ∨ dateArg = some "") →
      check_availability dateArg timeArg ctx storeE = false)
    ∧ ((timeArg = none ∨ timeArg = some "") →
      check_availability dateArg timeArg ctx storeE = false)
    ∧ (ctx = .error () → check_availability dateArg timeArg ctx storeE = false)
    ∧ (storeE = .error () → check_availability dateArg timeArg ctx storeE = false) := by
  have hg : ∀ (d t : Option String) (c : Except Unit ShopContext)
      (s : Except Unit (List Reservation)),
      (!pyTruthy d || !pyTruthy t) = true → check_availability d t c s = false := by
    intro d t c s h
    simp [check_availability, h]
  have hes : pyTruthy (some "") = false := by decide
  have hnone : pyTruthy none = false := rfl
  refine ⟨?_, ?_, ?_, ?_⟩
  · rintro (rfl | rfl) <;> apply hg <;> simp [hes, hnone]
  · rintro (rfl | rfl) <;> apply hg <;> simp [hes, hnone]
  · rintro rfl
    cases hb : (!pyTruthy dateArg || !pyTruthy timeArg) with
    | true => exact hg _ _ _ _ hb
    | false => simp [check_availability, hb]
  · rintro rfl
    cases hb : (!pyTruthy dateArg || !pyTruthy timeArg) with
    | true => exact hg _ _ _ _ hb
    | false => simp [check_availability, hb]

/-- Witness for C9 at concrete arguments. -/
theorem check_availability_fails_closed_witness :
    ((some "" : Option String) = none ∨ (some "" : Option String) = some "")
    ∧ check_availability (some "") (some "18:00") (.error ()) (.ok []) = false :=
  ⟨Or.inr rfl,
   (check_availability_fails_closed (some "") (some "18:00") (.error ()) (.ok [])).1
     (Or.inr rfl)⟩

lemma pyTruthy_none : pyTruthy none = false := rfl

lemma truthy_of_ne (s : String) (h : s ≠ "") : pyTruthy (some s) = true := by
  cases hse : s.isEmpty with
  | true => exact absurd ((String.isEmpty_iff s).mp hse) h
  | false => simp [pyTruthy, hse]

lemma map_cancel_frame (store : List Reservation) (rid : String)
    (h : ∀ r ∈ store, r.reservation_id ≠ rid) :
    (store.map fun x =>
      if x.reservation_id = rid then { x with status := "cancelled" } else x) = store := by
  conv_rhs => rw [← List.map_id store]
  exact List.map_congr_left fun x hx => by simp [h x hx]

lemma cancel_enhanced_fail_frame (idK phoneK emailK : Option String) (st : List Reservation)
    (h : (cancel_reservation_enhanced idK phoneK emailK st).1.success = false) :
    (cancel_reservation_enhanced idK phoneK emailK st).2 = st := by
  rcases hT : cancelTarget idK phoneK emailK st with ⟨tgt, crit⟩
  cases tgt <;> cases crit <;>
    simp_all [cancel_reservation_enhanced, hT]

lemma cancel_by_absent_id (st : List Reservation) (i : String)
    (h : ∀ r ∈ st, r.reservation_id ≠ i) :
    (cancel_reservation_enhanced (some i) none none st).1.success = false
    ∧ (cancel_reservation_enhanced (some i) none none st).2 = st := by
  cases hpt : pyTruthy (some i) with
  | false =>
      have hT : cancelTarget (some i) none none st = (none, false) := by
        simp [cancelTarget, hpt, pyTruthy_none]
      simp [cancel_reservation_enhanced, hT]
  | true =>
      have hT : cancelTarget (some i) none none st = (none, true) := by
        simp [cancelTarget, hpt]
        intro r hr heq
        exact (h r hr heq).elim
      simp [cancel_reservation_enhanced, hT]

/-- C3: saving a reservation with a fresh non-empty id succeeds and appends
a confirmed row; cancelling by the returned id succeeds and flips exactly
that row's status to cancelled; a second cancellation by the same id fails
and leaves the store unchanged, as does cancellation by a nonexistent id;
and every failed cancellation leaves every stored row unchanged. -/
theorem reserve_then_cancel_roundtrip
    (newId : String) (data : ResData) (store : List Reservation)
    (hid : newId ≠ "")
    (hfresh : ∀ r ∈ store, r.reservation_id ≠ newId)
    (hphone : data.phone_number.isSome = true)
    (hdate : data.date.isSome = true)
    (htime : data.time.isSome = true) :
    (save_reservation newId data store).1.success = true
    ∧ (save_reservation newId data store).1.reservation_id = newId
    ∧ (cancel_reservation_enhanced (some newId) none none
        (save_reservation newId data store).2).1.success = true
    ∧ (∃ row, (save_reservation newId data store).2 = store ++ [row]
        ∧ row.status = "confirmed" ∧ row.reservation_id = newId
        ∧ (cancel_reservation_enhanced (some newId) none none
            (save_reservation newId data store).2).2
          = store ++ [{ row with status := "cancelled" }])
    ∧ (cancel_reservation_enhanced (some newId) none none
        (cancel_reservation_enhanced (some newId) none none
          (save_reservation newId data store).2).2).1.success = false
    ∧ (cancel_reservation_enhanced (some newId) none none
        (cancel_reservation_enhanced (some newId) none none
          (save_reservation newId data store).2).2).2
      = (cancel_reservation_enhanced (some newId) none none
          (save_reservation newId data store).2).2
    ∧ (∀ (st : List Reservation) (i : String), (∀ r ∈ st, r.reservation_id ≠ i) →
        (cancel_reservation_enhanced (some i) none none st).1.success = false
        ∧ (cancel_reservation_enhanced (some i) none none st).2 = st)
    ∧ (∀ (idK phoneK emailK : Option String) (st : List Reservation),
        (cancel_reservation_enhanced idK phoneK emailK st).1.success = false →
        (cancel_reservation_enhanced idK phoneK emailK st).2 = st) := by
  obtain ⟨ph, hph⟩ := Option.isSome_iff_exists.mp hphone
  obtain ⟨d, hd⟩ := Option.isSome_iff_exists.mp hdate
  obtain ⟨t, ht⟩ := Option.isSome_iff_exists.mp htime
  have hany : (store.any fun r => r.reservation_id = newId) = false := by
    rw [List.any_eq_false]
    intro r hr
    simp [hfresh r hr]
  set row : Reservation :=
    ⟨newId, data.customer_name.getD "Customer", ph, data.email.getD "", d, t,
     data.party_size.getD 1, data.service_type.getD "General", "confirmed", store.length⟩ with hrow
  have hs : save_reservation newId data store = (⟨true, newId⟩, store ++ [row]) := by
    simp [save_reservation, hany, hph, hd, ht, hrow]
  have hpt : pyTruthy (some newId) = true := truthy_of_ne newId hid
  have hfind1 : (store ++ [row]).find?
      (fun r => r.reservation_id = newId && r.status = "confirmed") = some row := by
    rw [List.find?_append]
    have h1 : store.find? (fun r => r.reservation_id = newId && r.status = "confirmed") = none := by
      rw [List.find?_eq_none]
      intro r hr
      simp [hfresh r hr]
    rw [h1]
    simp [hrow]
  have hT1 : cancelTarget (some newId) none none (store ++ [row]) = (some row, true) := by
    simp only [cancelTarget, hpt, if_true]
    simpa using hfind1
  have hflip : (cancel_reservation_enhanced (some newId) none none (store ++ [row])).2
      = store ++ [{ row with status := "cancelled" }] := by
    simp only [cancel_reservation_enhanced, hT1, List.map_append]
    rw [map_cancel_frame store newId ?_]
    · simp [hrow]
    · intro r hr
      exact hfresh r hr
  have hc1succ : (cancel_reservation_enhanced (some newId) none none (store ++ [row])).1.success = true := by
    simp [cancel_reservation_enhanced, hT1]
  have hfind2 : (store ++ [({ row with status := "cancelled" } : Reservation)]).find?
      (fun r => r.reservation_id = newId && r.status = "confirmed") = none := by
    rw [List.find?_eq_none]
    intro r hr
    rcases List.mem_append.mp hr with h1 | h2
    · simp only [Bool.and_eq_true, decide_eq_true_eq, not_and]
      intro heq
      exact (hfresh r h1 heq).elim
    · simp only [List.mem_singleton] at h2
      subst h2
      simp
  have hT2 : cancelTarget (some newId) none none
      (store ++ [({ row with status := "cancelled" } : Reservation)]) = (none, true) := by
    simp only [cancelTarget, hpt, if_true]
    simpa using hfind2
  refine ⟨by simp [hs], by simp [hs], ?_, ?_, ?_, ?_, cancel_by_absent_id, cancel_enhanced_fail_frame⟩
  · rw [hs]
    exact hc1succ
  · exact ⟨row, by rw [hs], rfl, rfl, by rw [hs]; exact hflip⟩
  · rw [hs]
    simp only [hflip]
    simp [cancel_reservation_enhanced, hT2]
  · rw [hs]
    simp only [hflip]
    simp [cancel_reservation_enhanced, hT2]


lemma char_toNat_inj {x y : Char} (h : x.toNat = y.toNat) : x = y :=
  Char.ext (UInt32.ext h)

lemma charListLt_irrefl (l : List Char) : charListLt l l = false := by
  induction l with
  | nil => rfl
  | cons a as ih => simp [charListLt, ih, lt_irrefl]

lemma charListLt_trans : ∀ {a b c : List Char},
    charListLt a b = true → charListLt b c = true → charListLt a c = true := by
  intro a
  induction a with
  | nil =>
      intro b c hab hbc
      cases b with
      | nil => exact absurd hab (by simp [charListLt])
      | cons y ys =>
          cases c with
          | nil => exact absurd hbc (by simp [charListLt])
          | cons z zs => simp [charListLt]
  | cons x xs ih =>
      intro b c hab hbc
      cases b with
      | nil => exact absurd hab (by simp [charListLt])
      | cons y ys =>
          cases c with
          | nil => exact absurd hbc (by simp [charListLt])
          | cons z zs =>
              simp only [charListLt, Bool.or_eq_true, Bool.and_eq_true, decide_eq_true_eq] at hab hbc ⊢
              rcases hab with h1 | ⟨e1, h1⟩ <;> rcases hbc with h2 | ⟨e2, h2⟩
              · exact Or.inl (lt_trans h1 h2)
              · exact Or.inl (e2 ▸ h1)
              · exact Or.inl (e1 ▸ h2)
              · exact Or.inr ⟨e1.trans e2, ih h1 h2⟩

lemma charListLt_conn : ∀ (a b : List Char),
    charListLt a b = false → charListLt b a = true ∨ a = b := by
  intro a
  induction a with
  | nil =>
      intro b h
      cases b with
      | nil => exact Or.inr rfl
      | cons y ys => exact absurd h (by simp [charListLt])
  | cons x xs ih =>
      intro b h
      cases b with
      | nil => exact Or.inl (by simp [charListLt])
      | cons y ys =>
          simp only [charListLt, Bool.or_eq_false_iff, Bool.and_eq_false_iff,
            decide_eq_false_iff_not] at h
          obtain ⟨hlt, hrest⟩ := h
          by_cases hxy : x = y
          · subst hxy
            have hxs : charListLt xs ys = false := by
              rcases hrest with h' | h'
              · simp at h'
              · exact h'
            rcases ih ys hxs with h' | h'
            · exact Or.inl (by simp [charListLt, h'])
            · exact Or.inr (by rw [h'])
          · have : y.toNat < x.toNat := by
              have hne : x.toNat ≠ y.toNat := fun hc => hxy (char_toNat_inj hc)
              omega
            exact Or.inl (by simp [charListLt, this])

lemma strLt_irrefl (s : String) : strLt s s = false := charListLt_irrefl s.toList

lemma strLt_trans {a b c : String} (h1 : strLt a b = true) (h2 : strLt b c = true) :
    strLt a c = true := charListLt_trans h1 h2

lemma strLt_conn (a b : String) (h : strLt a b = false) : strLt b a = true ∨ a = b := by
  rcases charListLt_conn a.toList b.toList h with h' | h'
  · exact Or.inl h'
  · refine Or.inr ?_
    have := congrArg (fun l => String.mk l) h'
    simpa using this

lemma slotKeyLt_irrefl (a : Reservation) : slotKeyLt a a = false := by
  simp [slotKeyLt, strLt_irrefl]

lemma slotKeyLt_trans {a b c : Reservation} (h1 : slotKeyLt a b = true)
    (h2 : slotKeyLt b c = true) : slotKeyLt a c = true := by
  simp only [slotKeyLt, Bool.or_eq_true, Bool.and_eq_true, decide_eq_true_eq] at h1 h2 ⊢
  rcases h1 with h1 | ⟨e1, h1⟩ <;> rcases h2 with h2 | ⟨e2, h2⟩
  · exact Or.inl (strLt_trans h1 h2)
  · exact Or.inl (e2 ▸ h1)
  · exact Or.inl (e1 ▸ h2)
  · exact Or.inr ⟨e1.trans e2, strLt_trans h1 h2⟩

lemma strLt_asym {a b : String} (h1 : strLt a b = true) (h2 : strLt b a = true) : False := by
  have := strLt_trans h1 h2
  rw [strLt_irrefl] at this
  cases this

lemma strLt_negtrans {a b c : String} (h1 : strLt a b = false) (h2 : strLt b c = false) :
    strLt a c = false := by
  cases hac : strLt a c with
  | false => rfl
  | true =>
      exfalso
      rcases strLt_conn _ _ h1 with hba | hba <;> rcases strLt_conn _ _ h2 with hcb | hcb
      · exact strLt_asym (strLt_trans hac hcb) hba
      · rw [← hcb] at hac
        rw [hac] at h1
        cases h1
      · rw [hba] at hac
        rw [hac] at h2
        cases h2
      · rw [hba, hcb] at hac
        rw [strLt_irrefl] at hac
        cases hac

lemma slotKeyLt_negtrans {a b c : Reservation} (h1 : slotKeyLt a b = false)
    (h2 : slotKeyLt b c = false) : slotKeyLt a c = false := by
  simp only [slotKeyLt, Bool.or_eq_false_iff, Bool.and_eq_false_iff,
    decide_eq_false_iff_not] at h1 h2 ⊢
  obtain ⟨hd1, hr1⟩ := h1
  obtain ⟨hd2, hr2⟩ := h2
  refine ⟨strLt_negtrans hd1 hd2, ?_⟩
  by_cases hdc : a.reservation_date = c.reservation_date
  · have hall : a.reservation_date = b.reservation_date ∧
        b.reservation_date = c.reservation_date := by
      rcases strLt_conn _ _ hd1 with hba | hba <;> rcases strLt_conn _ _ hd2 with hcb | hcb
      · exfalso
        have : strLt c.reservation_date a.reservation_date = true := strLt_trans hcb hba
        rw [← hdc] at this
        rw [strLt_irrefl] at this
        cases this
      · exfalso
        rw [hcb, ← hdc] at hba
        rw [strLt_irrefl] at hba
        cases hba
      · exfalso
        rw [← hba, ← hdc] at hcb
        rw [strLt_irrefl] at hcb
        cases hcb
      · exact ⟨hba, hcb⟩
    have ht1 : strLt a.reservation_time b.reservation_time = false := by
      rcases hr1 with h' | h'
      · exact absurd hall.1 h'
      · exact h'
    have ht2 : strLt b.reservation_time c.reservation_time = false := by
      rcases hr2 with h' | h'
      · exact absurd hall.2 h'
      · exact h'
    exact Or.inr (strLt_negtrans ht1 ht2)
  · exact Or.inl hdc

lemma selectLatest_aux : ∀ (ms : List Reservation) (acc : Option Reservation) (r : Reservation),
    ms.foldl (fun acc r => match acc with
      | none => some r
      | some b => if slotKeyLt b r then some r else some b) acc = some r →
    (acc = some r ∨ r ∈ ms)
    ∧ (∀ b ∈ ms, slotKeyLt r b = false)
    ∧ (∀ a, acc = some a → slotKeyLt r a = false) := by
  intro ms
  induction ms with
  | nil =>
      intro acc r h
      simp only [List.foldl_nil] at h
      refine ⟨Or.inl h, by simp, ?_⟩
      intro a ha
      rw [h] at ha
      cases ha
      exact slotKeyLt_irrefl r
  | cons x ms ih =>
      intro acc r h
      simp only [List.foldl_cons] at h
      cases acc with
      | none =>
          have h' : ms.foldl (fun acc r => match acc with
              | none => some r
              | some b => if slotKeyLt b r then some r else some b) (some x) = some r := h
          obtain ⟨hmem, hdom, hacc⟩ := ih (some x) r h'
          have hx : slotKeyLt r x = false := hacc x rfl
          refine ⟨?_, ?_, ?_⟩
          · rcases hmem with h'' | h''
            · cases h''
              exact Or.inr (List.mem_cons_self x ms)
            · exact Or.inr (List.mem_cons_of_mem x h'')
          · intro b hb
            rcases List.mem_cons.mp hb with rfl | hb'
            · exact hx
            · exact hdom b hb'
          · intro a ha
            cases ha
      | some b0 =>
          cases hlt : slotKeyLt b0 x with
          | true =>
              have h' : ms.foldl (fun acc r => match acc with
                  | none => some r
                  | some b => if slotKeyLt b r then some r else some b) (some x) = some r := by
                have hstep : (if slotKeyLt b0 x then some x else some b0) = some x := by
                  rw [hlt]
                  simp
                rw [← hstep]
                exact h
              obtain ⟨hmem, hdom, hacc⟩ := ih (some x) r h'
              have hx : slotKeyLt r x = false := hacc x rfl
              refine ⟨?_, ?_, ?_⟩
              · rcases hmem with h'' | h''
                · cases h''
                  exact Or.inr (List.mem_cons_self x ms)
                · exact Or.inr (List.mem_cons_of_mem x h'')
              · intro b hb
                rcases List.mem_cons.mp hb with rfl | hb'
                · exact hx
                · exact hdom b hb'
              · intro a ha
                cases ha
                cases hrb : slotKeyLt r b0 with
                | false => rfl
                | true =>
                    have hcontra : slotKeyLt r x = true := slotKeyLt_trans hrb hlt
                    rw [hx] at hcontra
                    cases hcontra
          | false =>
              have h' : ms.foldl (fun acc r => match acc with
                  | none => some r
                  | some b => if slotKeyLt b r then some r else some b) (some b0) = some r := by
                have hstep : (if slotKeyLt b0 x then some x else some b0) = some b0 := by
                  rw [hlt]
                  simp
                rw [← hstep]
                exact h
              obtain ⟨hmem, hdom, hacc⟩ := ih (some b0) r h'
              have hb0 : slotKeyLt r b0 = false := hacc b0 rfl
              have hx : slotKeyLt r x = false := slotKeyLt_negtrans hb0 hlt
              refine ⟨?_, ?_, ?_⟩
              · rcases hmem with h'' | h''
                · exact Or.inl h''
                · exact Or.inr (List.mem_cons_of_mem x h'')
              · intro b hb
                rcases List.mem_cons.mp hb with rfl | hb'
                · exact hx
                · exact hdom b hb'
              · intro a ha
                cases ha
                exact hb0

lemma selectLatest_spec (ms : List Reservation) (r : Reservation)
    (h : selectLatestConfirmed ms = some r) :
    r ∈ ms ∧ ∀ b ∈ ms, slotKeyLt r b = false := by
  obtain ⟨hmem, hdom, _⟩ := selectLatest_aux ms none r h
  rcases hmem with h' | h'
  · cases h'
  · exact ⟨h', hdom⟩


lemma cancel_uses_id_only (idK phoneK emailK : Option String) (st : List Reservation)
    (h : pyTruthy idK = true) :
    cancel_reservation_enhanced idK phoneK emailK st
      = cancel_reservation_enhanced idK none none st := by
  simp [cancel_reservation_enhanced, cancelTarget, h]

lemma cancel_uses_phone_only (idK phoneK emailK : Option String) (st : List Reservation)
    (h1 : pyTruthy idK = false) (h2 : pyTruthy phoneK = true) :
    cancel_reservation_enhanced idK phoneK emailK st
      = cancel_reservation_enhanced none phoneK none st := by
  simp [cancel_reservation_enhanced, cancelTarget, h1, h2, pyTruthy_none]

lemma cancel_uses_email_only (idK phoneK emailK : Option String) (st : List Reservation)
    (h1 : pyTruthy idK = false) (h2 : pyTruthy phoneK = false) (h3 : pyTruthy emailK = true) :
    cancel_reservation_enhanced idK phoneK emailK st
      = cancel_reservation_enhanced none none emailK st := by
  simp [cancel_reservation_enhanced, cancelTarget, h1, h2, h3, pyTruthy_none]

lemma cancel_flow_store_eq (k1 k2 k3 : Option String) (sess : Session)
    (cache : List (String × String)) (store : List Reservation)
    (h : (pyTruthy (resolveCancellationKeys k1 k2 k3 sess.userPhone sess.userEmail).1
        || pyTruthy (resolveCancellationKeys k1 k2 k3 sess.userPhone sess.userEmail).2.1
        || pyTruthy (resolveCancellationKeys k1 k2 k3 sess.userPhone sess.userEmail).2.2) = true) :
    (cancel_existing_reservation_flow k1 k2 k3 sess cache store).2.2.2
      = (cancel_reservation_enhanced
          (resolveCancellationKeys k1 k2 k3 sess.userPhone sess.userEmail).1
          (resolveCancellationKeys k1 k2 k3 sess.userPhone sess.userEmail).2.1
          (resolveCancellationKeys k1 k2 k3 sess.userPhone sess.userEmail).2.2 store).2 := by
  simp only [cancel_existing_reservation_flow, h, Bool.not_true, Bool.false_eq_true, if_false]
  cases hs : (cancel_reservation_enhanced
      (resolveCancellationKeys k1 k2 k3 sess.userPhone sess.userEmail).1
      (resolveCancellationKeys k1 k2 k3 sess.userPhone sess.userEmail).2.1
      (resolveCancellationKeys k1 k2 k3 sess.userPhone sess.userEmail).2.2 store).1.success with
  | true => simp [hs]
  | false =>
      simp [hs]
      exact (cancel_enhanced_fail_frame _ _ _ _ hs).symm


/-- C2 (amended): exactly one identifying key is used per cancellation
request, in the priority order explicit id, explicit phone, explicit email
from the message, then the session's phone, then the session's email; when
none resolves the user is asked and no reservation row is touched; and when
the lookup is by phone or email the row cancelled is a confirmed matching
row that is maximal in (reservation_date, reservation_time) order — not
the most recently created matching row. -/
theorem cancellation_key_priority
    (msgId msgPhone msgEmail : Option String) (sess : Session)
    (cache : List (String × String)) (store : List Reservation) :
    (pyTruthy msgId = true →
      (cancel_existing_reservation_flow msgId msgPhone msgEmail sess cache store).2.2.2
        = (cancel_reservation_enhanced msgId none none store).2)
    ∧ (pyTruthy msgId = false → pyTruthy msgPhone = true →
      (cancel_existing_reservation_flow msgId msgPhone msgEmail sess cache store).2.2.2
        = (cancel_reservation_enhanced none msgPhone none store).2)
    ∧ (pyTruthy msgId = false → pyTruthy msgPhone = false → pyTruthy msgEmail = true →
      (cancel_existing_reservation_flow msgId msgPhone msgEmail sess cache store).2.2.2
        = (cancel_reservation_enhanced none none msgEmail store).2)
    ∧ (pyTruthy msgId = false → pyTruthy msgPhone = false → pyTruthy msgEmail = false →
      pyTruthy sess.userPhone = true →
      (cancel_existing_reservation_flow msgId msgPhone msgEmail sess cache store).2.2.2
        = (cancel_reservation_enhanced none sess.userPhone none store).2)
    ∧ (pyTruthy msgId = false → pyTruthy msgPhone = false → pyTruthy msgEmail = false →
      pyTruthy sess.userPhone = false → pyTruthy sess.userEmail = true →
      (cancel_existing_reservation_flow msgId msgPhone msgEmail sess cache store).2.2.2
        = (cancel_reservation_enhanced none none sess.userEmail store).2)
    ∧ (pyTruthy msgId = false → pyTruthy msgPhone = false → pyTruthy msgEmail = false →
      pyTruthy sess.userPhone = false → pyTruthy sess.userEmail = false →
      (cancel_existing_reservation_flow msgId msgPhone msgEmail sess cache store).2.2.2 = store
      ∧ (cancel_existing_reservation_flow msgId msgPhone msgEmail sess cache store).1.needs_more_info
        = true)
    ∧ (∀ (pk : String) (st : List Reservation) (r : Reservation),
        cancelTarget none (some pk) none st = (some r, true) →
        r ∈ st ∧ r.phone_number = pk ∧ r.status = "confirmed"
        ∧ ∀ b ∈ st, b.phone_number = pk → b.status = "confirmed" → slotKeyLt r b = false)
    ∧ (∀ (ek : String) (st : List Reservation) (r : Reservation),
        cancelTarget none none (some ek) st = (some r, true) →
        r ∈ st ∧ r.email = ek ∧ r.status = "confirmed"
        ∧ ∀ b ∈ st, b.email = ek → b.status = "confirmed" → slotKeyLt r b = false)
    ∧ (∀ (idK phoneK emailK : Option String) (st : List Reservation) (r : Reservation),
        cancelTarget idK phoneK emailK st = (some r, true) →
        (cancel_reservation_enhanced idK phoneK emailK st).1.reservation_id = r.reservation_id
        ∧ (cancel_reservation_enhanced idK phoneK emailK st).2
          = st.map fun x =>
              if x.reservation_id = r.reservation_id then { x with status := "cancelled" } else x) := by
  have hkeys1 : ∀ (h : pyTruthy msgId = true),
      resolveCancellationKeys msgId msgPhone msgEmail sess.userPhone sess.userEmail
        = (msgId, msgPhone, msgEmail) := by
    intro h
    simp [resolveCancellationKeys, h]
  refine ⟨?_, ?_, ?_, ?_, ?_, ?_, ?_, ?_, ?_⟩
  · intro h
    have hk : resolveCancellationKeys msgId msgPhone msgEmail sess.userPhone sess.userEmail
        = (msgId, msgPhone, msgEmail) := hkeys1 h
    rw [cancel_flow_store_eq msgId msgPhone msgEmail sess cache store (by rw [hk]; simp [h]), hk]
    rw [cancel_uses_id_only _ _ _ _ h]
  · intro h1 h2
    have hk : resolveCancellationKeys msgId msgPhone msgEmail sess.userPhone sess.userEmail
        = (msgId, msgPhone, msgEmail) := by
      simp [resolveCancellationKeys, h1, h2]
    rw [cancel_flow_store_eq msgId msgPhone msgEmail sess cache store (by rw [hk]; simp [h2]), hk]
    rw [cancel_uses_phone_only _ _ _ _ h1 h2]
  · intro h1 h2 h3
    have hk : resolveCancellationKeys msgId msgPhone msgEmail sess.userPhone sess.userEmail
        = (msgId, msgPhone, msgEmail) := by
      simp [resolveCancellationKeys, h1, h2, h3]
    rw [cancel_flow_store_eq msgId msgPhone msgEmail sess cache store (by rw [hk]; simp [h3]), hk]
    rw [cancel_uses_email_only _ _ _ _ h1 h2 h3]
  · intro h1 h2 h3 h4
    have hk : resolveCancellationKeys msgId msgPhone msgEmail sess.userPhone sess.userEmail
        = (msgId, sess.userPhone, msgEmail) := by
      simp [resolveCancellationKeys, h1, h2, h3, h4]
    rw [cancel_flow_store_eq msgId msgPhone msgEmail sess cache store (by rw [hk]; simp [h4]), hk]
    rw [cancel_uses_phone_only _ _ _ _ h1 h4]
  · intro h1 h2 h3 h4 h5
    have hk : resolveCancellationKeys msgId msgPhone msgEmail sess.userPhone sess.userEmail
        = (msgId, msgPhone, sess.userEmail) := by
      simp [resolveCancellationKeys, h1, h2, h3, h4, h5]
    rw [cancel_flow_store_eq msgId msgPhone msgEmail sess cache store (by rw [hk]; simp [h5]), hk]
    rw [cancel_uses_email_only _ _ _ _ h1 h2 h5]
  · intro h1 h2 h3 h4 h5
    have hk : resolveCancellationKeys msgId msgPhone msgEmail sess.userPhone sess.userEmail
        = (msgId, msgPhone, msgEmail) := by
      simp [resolveCancellationKeys, h1, h2, h3, h4, h5]
    constructor <;>
      simp [cancel_existing_reservation_flow, hk, h1, h2, h3]
  · intro pk st r hT
    cases hpk : pyTruthy (some pk) with
    | false =>
        rw [cancelTarget, if_neg (by simp [pyTruthy_none]), if_neg (by simp [hpk]),
          if_neg (by simp [pyTruthy_none])] at hT
        cases hT
    | true =>
        rw [cancelTarget, if_neg (by simp [pyTruthy_none]), if_pos (by simp [hpk])] at hT
        have hsel : selectLatestConfirmed (st.filter fun x =>
            x.phone_number = (some pk : Option String).getD "" && x.status = "confirmed")
            = some r := (Prod.mk.injEq _ _ _ _ ▸ hT).1
        obtain ⟨hmem, hdom⟩ := selectLatest_spec _ _ hsel
        rw [List.mem_filter] at hmem
        obtain ⟨hmem', hpred⟩ := hmem
        simp only [Option.getD_some, Bool.and_eq_true, decide_eq_true_eq] at hpred
        refine ⟨hmem', hpred.1, hpred.2, ?_⟩
        intro b hb hbp hbs
        exact hdom b (List.mem_filter.mpr ⟨hb, by simp [hbp, hbs]⟩)
  · intro ek st r hT
    cases hek : pyTruthy (some ek) with
    | false =>
        rw [cancelTarget, if_neg (by simp [pyTruthy_none]), if_neg (by simp [pyTruthy_none]),
          if_neg (by simp [hek])] at hT
        cases hT
    | true =>
        rw [cancelTarget, if_neg (by simp [pyTruthy_none]), if_neg (by simp [pyTruthy_none]),
          if_pos (by simp [hek])] at hT
        have hsel : selectLatestConfirmed (st.filter fun x =>
            x.email = (some ek : Option String).getD "" && x.status = "confirmed")
            = some r := (Prod.mk.injEq _ _ _ _ ▸ hT).1
        obtain ⟨hmem, hdom⟩ := selectLatest_spec _ _ hsel
        rw [List.mem_filter] at hmem
        obtain ⟨hmem', hpred⟩ := hmem
        simp only [Option.getD_some, Bool.and_eq_true, decide_eq_true_eq] at hpred
        refine ⟨hmem', hpred.1, hpred.2, ?_⟩
        intro b hb hbp hbs
        exact hdom b (List.mem_filter.mpr ⟨hb, by simp [hbp, hbs]⟩)
  · intro idK phoneK emailK st r hT
    constructor <;> simp [cancel_reservation_enhanced, hT]


/-- Witness for C3 at a concrete payload and store. -/
theorem reserve_then_cancel_roundtrip_witness :
    (∀ r ∈ fullSlotStore, r.reservation_id ≠ "RES9100")
    ∧ (save_reservation "RES9100" sampleData fullSlotStore).1.success = true :=
  ⟨by decide,
   (reserve_then_cancel_roundtrip "RES9100" sampleData fullSlotStore (by decide) (by decide)
     (by decide) (by decide) (by decide)).1⟩

/-- Witness for C2 at a concrete phone lookup. -/
theorem cancellation_key_priority_witness :
    pyTruthy (some "5559998888") = true
    ∧ (cancel_existing_reservation_flow none (some "5559998888") none {} [] phonePairStore).2.2.2
      = (cancel_reservation_enhanced none (some "5559998888") none phonePairStore).2 :=
  ⟨by decide,
   (cancellation_key_priority none (some "5559998888") none {} [] phonePairStore).2.1
     (by decide) (by decide)⟩

/-- C2, counterexample to "the most recently created matching row is
cancelled": with two confirmed rows for the same phone, the code cancels
the row with the later reservation date (created first), not the most
recently created row. -/
theorem cancellation_not_most_recently_created :
    (cancel_reservation_enhanced none (some "5559998888") none phonePairStore).1.success = true
    ∧ (cancel_reservation_enhanced none (some "5559998888") none phonePairStore).1.reservation_id
      = "RESA"
    ∧ rowCreatedFirstLaterDate.created_at < rowCreatedLastEarlierDate.created_at
    ∧ (cancel_reservation_enhanced none (some "5559998888") none phonePairStore).2
      = [{ rowCreatedFirstLaterDate with status := "cancelled" }, rowCreatedLastEarlierDate] := by
  decide

/-- C4: the slot validator checks its rules in the fixed order — parseable
moment, not strictly past, at least `min_hours_from_now` ahead, at most
`max_days_in_future` ahead, shop open that weekday, time inside the
open-close window — and the first failing rule short-circuits with its
reason; a close time past midnight wraps the window, accepting exactly the
times at-or-after opening or at-or-before closing; a time 10 minutes ahead
is rejected under `min_hours_from_now = 2`, and a concrete time 3 hours
ahead inside open hours is accepted. -/
theorem validate_date_time_rule_order :
    (∀ (current minH maxD : Nat) (hd : Option (Option String)) (day : String)
        (pt : String → Option Nat),
      validate_date_time none current minH maxD hd day pt
        = (false, "Invalid date or time format", none))
    ∧ (∀ (current minH maxD : Nat) (hd : Option (Option String)) (day : String)
        (pt : String → Option Nat) (requested : Nat), requested < current →
      validate_date_time (some requested) current minH maxD hd day pt
        = (false, "Cannot book in the past", none))
    ∧ (∀ (current minH maxD : Nat) (hd : Option (Option String)) (day : String)
        (pt : String → Option Nat) (requested : Nat),
      current ≤ requested → requested < current + 60 * minH →
      validate_date_time (some requested) current minH maxD hd day pt
        = (false, "Booking must be at least " ++ toString minH ++ " hour(s) in advance", none))
    ∧ (∀ (current minH maxD : Nat) (hd : Option (Option String)) (day : String)
        (pt : String → Option Nat) (requested : Nat),
      current + 60 * minH ≤ requested → current + 1440 * maxD < requested →
      validate_date_time (some requested) current minH maxD hd day pt
        = (false, "Cannot book more than " ++ toString maxD ++ " days in advance", none))
    ∧ (∀ (current minH maxD : Nat) (day : String) (pt : String → Option Nat) (requested : Nat),
      current + 60 * minH ≤ requested → requested ≤ current + 1440 * maxD →
      validate_date_time (some requested) current minH maxD (some none) day pt
        = (false, "We\x27re closed on " ++ day, none))
    ∧ (∀ (current minH maxD : Nat) (day hs : String) (pt : String → Option Nat) (requested : Nat),
      current + 60 * minH ≤ requested → requested ≤ current + 1440 * maxD →
      (hs = "" ∨ pyLower hs = "closed") →
      validate_date_time (some requested) current minH maxD (some (some hs)) day pt
        = (false, "We\x27re closed on " ++ day, none))
    ∧ (∀ (current minH maxD : Nat) (day hs : String) (pt : String → Option Nat) (requested : Nat),
      current + 60 * minH ≤ requested → requested ≤ current + 1440 * maxD →
      hs ≠ "" → pyLower hs ≠ "closed" →
      ((validate_date_time (some requested) current minH maxD (some (some hs)) day pt).1 = true
        ↔ (check_within_shop_hours pt (requested % 1440) hs).1 = true)
      ∧ ((check_within_shop_hours pt (requested % 1440) hs).1 = false →
          validate_date_time (some requested) current minH maxD (some (some hs)) day pt
            = (false, (check_within_shop_hours pt (requested % 1440) hs).2, none)))
    ∧ (∀ (pt : String → Option Nat) (tod : Nat) (hs osStr csStr : String) (o c : Nat),
      pySplitDash hs = [osStr, csStr] →
      pt (pyStrip osStr) = some o → pt (pyStrip csStr) = some c → c < o →
      ((check_within_shop_hours pt tod hs).1 = true ↔ (o ≤ tod ∨ tod ≤ c)))
    ∧ (∀ (pt : String → Option Nat) (tod : Nat) (hs osStr csStr : String) (o c : Nat),
      pySplitDash hs = [osStr, csStr] →
      pt (pyStrip osStr) = some o → pt (pyStrip csStr) = some c → o ≤ c →
      ((check_within_shop_hours pt tod hs).1 = true ↔ (o ≤ tod ∧ tod ≤ c)))
    ∧ (∀ (current : Nat) (hd : Option (Option String)) (day : String)
        (pt : String → Option Nat),
      validate_date_time (some (current + 10)) current 2 30 hd day pt
        = (false, "Booking must be at least 2 hour(s) in advance", none))
    ∧ validate_date_time (some (600 + 180)) 600 2 30 (some (some "9:00 AM - 7:00 PM"))
        "monday" sampleParseTime = (true, "Valid datetime", some 780) := by
  refine ⟨?_, ?_, ?_, ?_, ?_, ?_, ?_, ?_, ?_, ?_, ?_⟩
  · intro current minH maxD hd day pt
    rfl
  · intro current minH maxD hd day pt requested h
    simp only [validate_date_time]
    rw [if_pos h]
  · intro current minH maxD hd day pt requested h1 h2
    simp only [validate_date_time]
    rw [if_neg (by omega), if_pos (by omega)]
  · intro current minH maxD hd day pt requested h1 h2
    simp only [validate_date_time]
    rw [if_neg (by omega), if_neg (by omega), if_pos (by omega)]
  · intro current minH maxD day pt requested h1 h2
    simp only [validate_date_time]
    rw [if_neg (by omega), if_neg (by omega), if_neg (by omega)]
  · intro current minH maxD day hs pt requested h1 h2 h3
    simp only [validate_date_time]
    rw [if_neg (by omega), if_neg (by omega), if_neg (by omega)]
    have hcond : (hs.isEmpty || pyLower hs = "closed") = true := by
      rcases h3 with h3 | h3
      · subst h3
        rw [show "".isEmpty = true from rfl]
        simp
      · simp [h3]
    simp [hcond]
  · intro current minH maxD day hs pt requested h1 h2 h3 h4
    simp only [validate_date_time]
    rw [if_neg (by omega), if_neg (by omega), if_neg (by omega)]
    have hcond : (hs.isEmpty || pyLower hs = "closed") = false := by
      have : hs.isEmpty = false := by
        cases hise : hs.isEmpty with
        | false => rfl
        | true => exact absurd ((String.isEmpty_iff hs).mp hise) h3
      simp [this, h4]
    rw [if_neg (by simp [hcond])]
    constructor
    · cases hch : (check_within_shop_hours pt (requested % 1440) hs).1 with
      | true => simp [hch]
      | false => simp [hch]
    · intro hch
      simp [hch]
  · intro pt tod hs osStr csStr o c hsplit ho hc hwrap
    have hred : check_within_shop_hours pt tod hs
        = if c < o then
            (if o ≤ tod || tod ≤ c then (true, "")
             else (false, "Time must be between " ++ pyStrip osStr ++ " and " ++ pyStrip csStr))
          else
            (if o ≤ tod && tod ≤ c then (true, "")
             else (false, "Time must be between " ++ pyStrip osStr ++ " and " ++ pyStrip csStr)) := by
      simp only [check_within_shop_hours, hsplit]
      rw [if_neg (by simp)]
      have h0 : ([osStr, csStr] : List String).getD 0 "" = osStr := rfl
      have h1 : ([osStr, csStr] : List String).getD 1 "" = csStr := rfl
      rw [h0, h1, ho, hc]
    rw [hred, if_pos hwrap]
    by_cases hcond : o ≤ tod ∨ tod ≤ c
    · rw [if_pos (by simpa using hcond)]
      exact iff_of_true rfl hcond
    · rw [if_neg (by simpa using hcond)]
      constructor
      · intro hfalse
        simp at hfalse
      · intro h'
        exact absurd h' hcond
  · intro pt tod hs osStr csStr o c hsplit ho hc hnorm
    have hred : check_within_shop_hours pt tod hs
        = if c < o then
            (if o ≤ tod || tod ≤ c then (true, "")
             else (false, "Time must be between " ++ pyStrip osStr ++ " and " ++ pyStrip csStr))
          else
            (if o ≤ tod && tod ≤ c then (true, "")
             else (false, "Time must be between " ++ pyStrip osStr ++ " and " ++ pyStrip csStr)) := by
      simp only [check_within_shop_hours, hsplit]
      rw [if_neg (by simp)]
      have h0 : ([osStr, csStr] : List String).getD 0 "" = osStr := rfl
      have h1 : ([osStr, csStr] : List String).getD 1 "" = csStr := rfl
      rw [h0, h1, ho, hc]
    rw [hred, if_neg (by omega)]
    by_cases hcond : o ≤ tod ∧ tod ≤ c
    · rw [if_pos (by simpa using hcond)]
      exact iff_of_true rfl hcond
    · rw [if_neg (by simpa using hcond)]
      constructor
      · intro hfalse
        simp at hfalse
      · intro h'
        exact absurd h' hcond
  · intro current hd day pt
    simp only [validate_date_time]
    rw [if_neg (by omega), if_pos (by omega)]
    decide
  · decide

/-- Witness for C4 at concrete inputs. -/
theorem validate_date_time_rule_order_witness :
    (599 : Nat) < 600
    ∧ validate_date_time (some 599) 600 2 30 none "monday" sampleParseTime
      = (false, "Cannot book in the past", none) :=
  ⟨by decide,
   validate_date_time_rule_order.2.1 600 2 30 none "monday" sampleParseTime 599 (by decide)⟩


lemma explicitNumberSize_range (s : List Char) (maxP n : Nat)
    (h : explicitNumberSize s maxP = some n) : 1 ≤ n ∧ n ≤ maxP := by
  obtain ⟨l1, run, l2, _, hrun, _⟩ := List.findSome?_eq_some_iff.mp h
  by_cases hc : (numberHasContext s (toString (natOfDigits run)).toList
      && 1 ≤ natOfDigits run && natOfDigits run ≤ maxP) = true
  · rw [if_pos hc] at hrun
    injection hrun with hn
    subst hn
    simp only [Bool.and_eq_true, decide_eq_true_eq] at hc
    exact ⟨hc.1.2, hc.2⟩
  · rw [if_neg hc] at hrun
    cases hrun

/-- C5 (amended): party size is decided by the first matching rule in the
order solo vocabulary (forcing 1), explicit number adjacent to a
party-context word, relationship keyword table, generic group words, else
absent; a number rule match is accepted only when the number already lies
in [1, max_party_size] — out-of-range numbers are skipped, not clamped;
and the two spec examples hold ("table for my brother and me" gives 2,
"family of five" gives 3). -/
theorem extract_party_size_rules :
    (∀ (s : List Char) (maxP : Nat), strictSoloMatch s = true → 1 ≤ maxP →
      extractPartySize s maxP = some 1)
    ∧ (∀ (s : List Char) (maxP n : Nat), strictSoloMatch s = false →
      explicitNumberSize s maxP = some n → extractPartySize s maxP = some n)
    ∧ (∀ (s : List Char) (maxP n : Nat), explicitNumberSize s maxP = some n →
      1 ≤ n ∧ n ≤ maxP)
    ∧ (∀ (s : List Char) (maxP k : Nat), strictSoloMatch s = false →
      explicitNumberSize s maxP = none → relationshipSize s = some k →
      extractPartySize s maxP = some (min k maxP))
    ∧ (∀ (s : List Char) (maxP : Nat), strictSoloMatch s = false →
      explicitNumberSize s maxP = none → relationshipSize s = none →
      groupIndicatorMatch s = true → extractPartySize s maxP = some (min 2 maxP))
    ∧ (∀ (s : List Char) (maxP : Nat), strictSoloMatch s = false →
      explicitNumberSize s maxP = none → relationshipSize s = none →
      groupIndicatorMatch s = false → extractPartySize s maxP = none)
    ∧ (extract_reservation_data "table for my brother and me" 0 0 (fun n => toString n)
        (fun _ => none) 10).party_size = some 2
    ∧ (extract_reservation_data "family of five" 0 0 (fun n => toString n)
        (fun _ => none) 10).party_size = some 3 := by
  refine ⟨?_, ?_, explicitNumberSize_range, ?_, ?_, ?_, ?_, ?_⟩
  · intro s maxP h hmax
    simp [extractPartySize, h, Nat.min_eq_left hmax]
  · intro s maxP n h hnum
    have hr := explicitNumberSize_range s maxP n hnum
    simp [extractPartySize, h, hnum, Nat.min_eq_left hr.2]
  · intro s maxP k h1 h2 h3
    simp [extractPartySize, h1, h2, h3]
  · intro s maxP h1 h2 h3 h4
    simp [extractPartySize, h1, h2, h3, h4]
  · intro s maxP h1 h2 h3 h4
    simp [extractPartySize, h1, h2, h3, h4]
  · decide
  · decide

/-- Witness for C5 at a concrete solo message. -/
theorem extract_party_size_rules_witness :
    (strictSoloMatch "just me please".toList = true ∧ 1 ≤ 10)
    ∧ extractPartySize "just me please".toList 10 = some 1 :=
  ⟨⟨by decide, by decide⟩,
   extract_party_size_rules.1 "just me please".toList 10 (by decide) (by decide)⟩

/-- C5, counterexample to "clamped to [1, max_party_size]": with
max_party_size 10, "dinner for 20 people" has the number 20 adjacent to a
party-context word, yet the extractor reports no party size at all instead
of the clamped value 10. -/
theorem party_size_number_not_clamped :
    numberHasContext "dinner for 20 people".toList "20".toList = true
    ∧ (extract_reservation_data "dinner for 20 people" 0 0 (fun n => toString n)
        (fun _ => none) 10).party_size = none := by
  decide

/-- C6: extracting from "just me tomorrow at 7pm" yields party size 1, the
day after the current date, and time "19:00"; and the 12-hour conversion
adds 12 to PM hours below 12, maps 12 AM to hour 0 and keeps 12 PM at
hour 12, preserving minutes. -/
theorem extract_solo_tomorrow_evening_time :
    (∀ (today wd maxP : Nat) (fmt : Nat → String) (ed : String → Option String),
      1 ≤ maxP →
      extract_reservation_data "just me tomorrow at 7pm" today wd fmt ed maxP
        = { service_type := none, party_size := some 1, date := some (fmt (today + 1)),
            time := some "19:00", customer_name := none, email := none,
            phone_number := none })
    ∧ (∀ (h m : Nat), h < 12 → convert24 h m true = (h + 12, m))
    ∧ (∀ m : Nat, convert24 12 m false = (0, m))
    ∧ (∀ m : Nat, convert24 12 m true = (12, m)) := by
  refine ⟨?_, ?_, ?_, ?_⟩
  · intro today wd maxP fmt ed hmax
    have hsolo : strictSoloMatch (loweredChars "just me tomorrow at 7pm") = true := by decide
    have ht1 : containsSub (loweredChars "just me tomorrow at 7pm") "tonight".toList
        = false := by decide
    have ht2 : containsSub (loweredChars "just me tomorrow at 7pm") "this evening".toList
        = false := by decide
    have ht3 : containsSub (loweredChars "just me tomorrow at 7pm") "tomorrow".toList
        = true := by decide
    have htime : timeFromMessage (loweredChars "just me tomorrow at 7pm")
        = some "19:00" := by decide
    have hserv : extractServiceType (loweredChars "just me tomorrow at 7pm") = none := by decide
    simp only [extract_reservation_data, extract_date_time, ht1, ht2, ht3, htime, hserv,
      extractPartySize, hsolo, if_true, Bool.false_or, Bool.or_self, Bool.false_eq_true,
      if_false]
    simp [Nat.min_eq_left hmax]
  · intro h m hlt
    simp [convert24, hlt]
  · intro m
    simp [convert24]
  · intro m
    simp [convert24]

/-- Witness for C6 at concrete parameters. -/
theorem extract_solo_tomorrow_evening_time_witness :
    (1 : Nat) ≤ 10
    ∧ extract_reservation_data "just me tomorrow at 7pm" 0 0 (fun n => toString n)
        (fun _ => none) 10
      = { service_type := none, party_size := some 1, date := some (toString (0 + 1)),
          time := some "19:00", customer_name := none, email := none,
          phone_number := none } :=
  ⟨by decide,
   extract_solo_tomorrow_evening_time.1 0 0 10 (fun n => toString n) (fun _ => none)
     (by decide)⟩

/-- C10: a message containing "tonight" or "this evening" yields today's
date, with the time defaulted to "18:00" exactly when no time pattern
matches (a matched time overrides the default); messages without those
words never receive the default time. -/
theorem tonight_default_time :
    (∀ (msg : String) (today wd maxP : Nat) (fmt : Nat → String) (ed : String → Option String),
      (containsSub (loweredChars msg) "tonight".toList = true
        ∨ containsSub (loweredChars msg) "this evening".toList = true) →
      (extract_reservation_data msg today wd fmt ed maxP).date = some (fmt today)
      ∧ (timeFromMessage (loweredChars msg) = none →
          (extract_reservation_data msg today wd fmt ed maxP).time = some "18:00")
      ∧ (∀ t, timeFromMessage (loweredChars msg) = some t →
          (extract_reservation_data msg today wd fmt ed maxP).time = some t))
    ∧ (∀ (msg : String) (today wd maxP : Nat) (fmt : Nat → String) (ed : String → Option String),
      containsSub (loweredChars msg) "tonight".toList = false →
      containsSub (loweredChars msg) "this evening".toList = false →
      timeFromMessage (loweredChars msg) = none →
      (extract_reservation_data msg today wd fmt ed maxP).time = none) := by
  constructor
  · intro msg today wd maxP fmt ed hcond
    have hcases : containsSub (loweredChars msg) ['t','o','n','i','g','h','t'] = true
        ∨ containsSub (loweredChars msg)
            ['t','h','i','s',' ','e','v','e','n','i','n','g'] = true := by
      rcases hcond with h | h
      · exact Or.inl (by simpa using h)
      · exact Or.inr (by simpa using h)
    refine ⟨?_, ?_, ?_⟩
    · rcases hcases with h' | h' <;> cases htm : timeFromMessage (loweredChars msg) <;>
        simp [extract_reservation_data, extract_date_time, h', htm]
    · intro htm
      rcases hcases with h' | h' <;>
        simp [extract_reservation_data, extract_date_time, h', htm]
    · intro t htm
      rcases hcases with h' | h' <;>
        simp [extract_reservation_data, extract_date_time, h', htm]
  · intro msg today wd maxP fmt ed h1 h2 h3
    simp only [extract_reservation_data, extract_date_time, h1, h2, h3, Bool.or_self,
      Bool.false_eq_true, if_false]
    split
    · rfl
    · split
      · rfl
      · split
        · rfl
        · rfl

/-- Witness for C10 at a concrete message. -/
theorem tonight_default_time_witness :
    (containsSub (loweredChars "dinner tonight") "tonight".toList = true
      ∨ containsSub (loweredChars "dinner tonight") "this evening".toList = true)
    ∧ ((extract_reservation_data "dinner tonight" 5 0 (fun n => toString n)
          (fun _ => none) 10).date = some (toString 5)
       ∧ (timeFromMessage (loweredChars "dinner tonight") = none →
          (extract_reservation_data "dinner tonight" 5 0 (fun n => toString n)
            (fun _ => none) 10).time = some "18:00")
       ∧ (∀ t, timeFromMessage (loweredChars "dinner tonight") = some t →
          (extract_reservation_data "dinner tonight" 5 0 (fun n => toString n)
            (fun _ => none) 10).time = some t)) :=
  ⟨Or.inl (by decide),
   tonight_default_time.1 "dinner tonight" 5 0 10 (fun n => toString n) (fun _ => none)
     (Or.inl (by decide))⟩
lemma orElse_none_fun (o : Option α) : (o.orElse fun _ => none) = o := by
  cases o <;> rfl

lemma ResData.update_empty (b : ResData) : ResData.update {} b = b := by
  obtain ⟨f1, f2, f3, f4, f5, f6, f7⟩ := b
  simp only [ResData.update, ResData.mk.injEq]
  exact ⟨orElse_none_fun f1, orElse_none_fun f2, orElse_none_fun f3, orElse_none_fun f4,
    orElse_none_fun f5, orElse_none_fun f6, orElse_none_fun f7⟩


lemma ResData.eq_empty_of_not_nonempty (d : ResData) (h : d.nonempty = false) :
    d = ({} : ResData) := by
  obtain ⟨f1, f2, f3, f4, f5, f6, f7⟩ := d
  simp only [ResData.nonempty, Bool.or_eq_false_iff] at h
  obtain ⟨⟨⟨⟨⟨⟨h1, h2⟩, h3⟩, h4⟩, h5⟩, h6⟩, h7⟩ := h
  simp only [ResData.mk.injEq]
  exact ⟨Option.not_isSome_iff_eq_none.mp (by simp [h1]),
    Option.not_isSome_iff_eq_none.mp (by simp [h2]),
    Option.not_isSome_iff_eq_none.mp (by simp [h3]),
    Option.not_isSome_iff_eq_none.mp (by simp [h4]),
    Option.not_isSome_iff_eq_none.mp (by simp [h5]),
    Option.not_isSome_iff_eq_none.mp (by simp [h6]),
    Option.not_isSome_iff_eq_none.mp (by simp [h7])⟩

lemma add_cache_ends (c : List (String × String)) (r x : String) :
    ∃ c', add_to_conversation_cache c r x = c' ++ [(r, x)] := by
  unfold add_to_conversation_cache
  by_cases h : (c ++ [(r, x)]).length > 20
  · rw [if_pos h]
    have hle : (c ++ [(r, x)]).length - 20 ≤ c.length := by
      simp only [List.length_append, List.length_cons, List.length_nil]
      omega
    refine ⟨c.drop ((c ++ [(r, x)]).length - 20), ?_⟩
    rw [List.drop_append_of_le_length hle]
  · rw [if_neg h]
    exact ⟨c, rfl⟩
/-- C8 (amended): whenever the turn body raises, the exception is caught at
the top level and converted into the generic apology reply with success
false, and that reply is appended as the latest conversation-cache entry;
the session is not rolled back (see the counterexample for a surviving
partial mutation). -/
theorem turn_errors_caught (msg : String) (sess : Session)
    (cache : List (String × String)) (store : List Reservation) (env : Env)
    (herr : (handle_shop_request_body msg sess cache store env).1 = .error ()) :
    (handle_shop_request msg sess cache store env).1.response = emergencyText
    ∧ (handle_shop_request msg sess cache store env).1.success = false
    ∧ ∃ c', (handle_shop_request msg sess cache store env).2.2.1
        = c' ++ [("assistant", emergencyText)] := by
  rcases hb : handle_shop_request_body msg sess cache store env with ⟨e, s2, c2, st2⟩
  rw [hb] at herr
  simp only at herr
  subst herr
  simp only [handle_shop_request, hb]
  exact ⟨trivial, trivial, add_cache_ends c2 "assistant" emergencyText⟩

lemma turn_data_eq_extract (msg2 : String) (sess : Session)
    (cache : List (String × String)) (store : List Reservation) (env : Env)
    (hstate : sess.reservationState = none)
    (hdata : sess.reservationData = ({} : ResData))
    (hnc : is_cancellation_request msg2 = false) :
    (handle_shop_request msg2 sess cache store env).2.1.reservationData = env.extract msg2 := by
  have h1s : (get_session_bump sess env.hintEmail env.hintName env.hintPhone).reservationState
      = none := by
    simp [get_session_bump, hstate]
  have h1d : (get_session_bump sess env.hintEmail env.hintName env.hintPhone).reservationData
      = ({} : ResData) := by
    simp [get_session_bump, hdata]
  by_cases hx : (env.extract msg2).nonempty = true
  · cases hctx : env.loadShopContext with
    | error e =>
        simp [handle_shop_request, handle_shop_request_body, hnc, h1s, h1d, hx, hctx,
          set_reservation_state, ResData.update_empty,
          show ({} : ResData).nonempty = false from rfl]
    | ok c =>
        simp [handle_shop_request, handle_shop_request_body, hnc, h1s, h1d, hx, hctx,
          set_reservation_state, ResData.update_empty,
          show ({} : ResData).nonempty = false from rfl]
  · have hempty : env.extract msg2 = ({} : ResData) :=
      ResData.eq_empty_of_not_nonempty _ (by revert hx; cases (env.extract msg2).nonempty <;> simp)
    cases hctx : env.loadShopContext with
    | error e =>
        simp [handle_shop_request, handle_shop_request_body, hnc, h1s, h1d, hx, hctx, hempty,
          show ({} : ResData).nonempty = false from rfl]
    | ok c =>
        simp [handle_shop_request, handle_shop_request_body, hnc, h1s, h1d, hx, hctx, hempty,
          show ({} : ResData).nonempty = false from rfl]
/-- C7: in awaiting_confirmation with a pending snapshot, a reply carrying
no affirmative token clears the accumulated reservation data, the pending
snapshot and the dialogue state, touches no reservation row, answers with
the restart invitation, and the next (non-cancellation) message starts
extraction from an empty draft: the session then holds exactly the new
message's extracted fields. -/
theorem refusal_clears_draft
    (msg : String) (sess : Session) (cache : List (String × String))
    (store : List Reservation) (env : Env) (p : ResData) (ctx : ShopContext)
    (hstate : sess.reservationState = some "awaiting_confirmation")
    (hpending : sess.pendingReservation = some p)
    (hnc : is_cancellation_request msg = false)
    (hna : anyAffirmativeWord msg = false)
    (hctx : env.loadShopContext = .ok ctx) :
    (handle_shop_request msg sess cache store env).2.2.2 = store
    ∧ (handle_shop_request msg sess cache store env).2.1.reservationData = ({} : ResData)
    ∧ (handle_shop_request msg sess cache store env).2.1.pendingReservation = none
    ∧ (handle_shop_request msg sess cache store env).2.1.reservationState = none
    ∧ (handle_shop_request msg sess cache store env).1.success = true
    ∧ (handle_shop_request msg sess cache store env).1.response
      = "No problem. Let me know if you\x27d like to change anything or start over."
    ∧ (∀ msg2 : String, is_cancellation_request msg2 = false →
        (handle_shop_request msg2 (handle_shop_request msg sess cache store env).2.1
          (handle_shop_request msg sess cache store env).2.2.1
          (handle_shop_request msg sess cache store env).2.2.2 env).2.1.reservationData
        = env.extract msg2) := by
  have h1s : (get_session_bump sess env.hintEmail env.hintName env.hintPhone).reservationState
      = some "awaiting_confirmation" := by
    simp [get_session_bump, hstate]
  have h1p : (get_session_bump sess env.hintEmail env.hintName env.hintPhone).pendingReservation
      = some p := by
    simp [get_session_bump, hpending]
  have hmain : handle_shop_request msg sess cache store env
      = ({ response := "No problem. Let me know if you\x27d like to change anything or start over.",
           success := true },
         clear_reservation_state (get_session_bump sess env.hintEmail env.hintName env.hintPhone),
         reset_conversation_context
           (add_to_conversation_cache
             (clear_conversation_cache (add_to_conversation_cache cache "user" msg))
             "assistant"
             "No problem. Let me know if you\x27d like to change anything or start over."),
         store) := by
    by_cases hx : (env.extract msg).nonempty = true
    · simp [handle_shop_request, handle_shop_request_body, process_reservation_confirmation,
        hnc, h1s, h1p, hx, hna, hctx, set_reservation_state, clear_reservation_state]
    · simp [handle_shop_request, handle_shop_request_body, process_reservation_confirmation,
        hnc, h1s, h1p, hx, hna, hctx, clear_reservation_state]
  refine ⟨?_, ?_, ?_, ?_, ?_, ?_, ?_⟩
  · rw [hmain]
  · rw [hmain]
    rfl
  · rw [hmain]
    rfl
  · rw [hmain]
    rfl
  · rw [hmain]
  · rw [hmain]
  · intro msg2 hnc2
    rw [hmain]
    exact turn_data_eq_extract msg2 _ _ _ env rfl rfl hnc2
/-- Witness for C7 at a concrete refusal. -/
theorem refusal_clears_draft_witness :
    (sessAwait.reservationState = some "awaiting_confirmation"
     ∧ anyAffirmativeWord "no thanks" = false)
    ∧ (handle_shop_request "no thanks" sessAwait [] [] okEnv).2.2.2 = [] :=
  ⟨⟨rfl, by decide⟩,
   (refusal_clears_draft "no thanks" sessAwait [] [] okEnv sampleData sampleCtx rfl rfl
     (by decide) (by decide) rfl).1⟩

/-- Witness for C8 at a concrete failing turn. -/
theorem turn_errors_caught_witness :
    (handle_shop_request_body "tomorrow" {} [] [] errorEnv).1 = .error ()
    ∧ (handle_shop_request "tomorrow" {} [] [] errorEnv).1.response = emergencyText :=
  ⟨rfl, (turn_errors_caught "tomorrow" {} [] [] errorEnv rfl).1⟩

/-- C8, counterexample to "the session state visible afterwards equals the
pre-turn snapshot": a turn that merges extracted data and then fails in the
shop-context load returns the generic apology, yet the session keeps the
merged reservation data and the collecting_info state. -/
theorem failed_turn_keeps_partial_state :
    (handle_shop_request "tomorrow" {} [] [] errorEnv).1.response = emergencyText
    ∧ (handle_shop_request "tomorrow" {} [] [] errorEnv).1.success = false
    ∧ (handle_shop_request "tomorrow" {} [] [] errorEnv).2.1.reservationData.date = some "101"
    ∧ ({} : Session).reservationData.date = none
    ∧ (handle_shop_request "tomorrow" {} [] [] errorEnv).2.1.reservationState
      = some "collecting_info"
    ∧ ({} : Session).reservationState = none := by
  decide

end SmartReserve
